import Mathlib

/-!
Shallow embedding of the scoring pipeline of
src/OptimalFacilitySiting/app.py (Flask facility-siting service).

Modelling conventions:
* pandas/GeoPandas floating-point numbers are modelled as rationals;
  the float NaN is an explicit marker (Cell.nan) and arithmetic on it
  propagates the marker, as IEEE NaN does.
* A GeoDataFrame is column-major: a geometry column (an arbitrary type,
  since the pipeline never inspects candidate geometries except through
  their centroid) plus named attribute columns of cells, in pandas
  column order.
* Geometric primitives supplied by shapely/GeoPandas (centroid,
  planar distance, reprojection) are parameters of the embedding:
  the repository delegates them to those libraries.
-/

namespace FacilitySiting

/-- A cell of a dataframe column: a finite number (rational model of a
float), the float NaN marker, or a non-numeric value that
pandas.to_numeric cannot parse. -/
inductive Cell where
  | num (q : ℚ)
  | nan
  | other
deriving DecidableEq, Repr

/-- Elementwise float addition: NaN (and any non-numeric operand)
propagates as NaN. -/
def Cell.addc : Cell → Cell → Cell
  | .num a, .num b => .num (a + b)
  | _, _ => .nan

/-- Elementwise float subtraction with NaN propagation. -/
def Cell.subc : Cell → Cell → Cell
  | .num a, .num b => .num (a - b)
  | _, _ => .nan

/-- Elementwise float division with NaN propagation.  Division by zero
is a non-finite float, modelled as NaN; in the pipeline every
denominator carries the +1e-9 epsilon and is provably nonzero. -/
def Cell.divc : Cell → Cell → Cell
  | .num a, .num b => if b = 0 then .nan else .num (a / b)
  | _, _ => .nan

/-- Multiplication by a scalar weight, as in 0.4 * gdf[col]. -/
def Cell.smulc (w : ℚ) : Cell → Cell
  | .num a => .num (w * a)
  | _ => .nan

/-- The expression 1 - x on a cell, as in the key-score formula. -/
def Cell.oneSubc : Cell → Cell
  | .num a => .num (1 - a)
  | _ => .nan

/-- Whether a cell is the NaN marker. -/
def Cell.isNanc : Cell → Bool
  | .nan => true
  | _ => false

/-- Whether a cell is a finite number. -/
def Cell.isNumc : Cell → Bool
  | .num _ => true
  | _ => false

/-- The numeric value of a cell, 0 for non-numbers (used only where a
number is known to be present). -/
def Cell.qval : Cell → ℚ
  | .num q => q
  | _ => 0

/-- The numeric payload of a cell, if any. -/
def Cell.qnum : Cell → Option ℚ
  | .num q => some q
  | _ => none

/-- The finite numeric entries of a column, in order: pandas min/max
skip NaN entries (skipna=True default). -/
def numsOf (xs : List Cell) : List ℚ :=
  xs.filterMap Cell.qnum

/-- pandas Series.min with skipna: minimum of the finite entries, NaN
if there are none.  (The pipeline never takes min of a column holding
unparseable values, so only num/nan cells matter here.) -/
def colMin (xs : List Cell) : Cell :=
  match numsOf xs with
  | [] => .nan
  | q :: qs => .num (qs.foldl min q)

/-- pandas Series.max with skipna: maximum of the finite entries, NaN
if there are none. -/
def colMax (xs : List Cell) : Cell :=
  match numsOf xs with
  | [] => .nan
  | q :: qs => .num (qs.foldl max q)

/-- pandas.to_numeric(col, errors=coerce): numbers pass through,
unparseable values become NaN.  (Parseable text is represented
directly as Cell.num, so only genuinely unparseable cells are
Cell.other.) -/
def toNumericCoerce : Cell → Cell
  | .num q => .num q
  | _ => .nan

/-- Series.fillna(0): NaN becomes 0, everything else passes through. -/
def fillna0 : Cell → Cell
  | .nan => .num 0
  | c => c

/-- The epsilon 1e-9 of the scoring formulas in app.py lines 61 and 67. -/
def EPS : ℚ := 1e-9

/-- A GeoDataFrame: geometry column plus named attribute columns
(column-major, in pandas column order).  Well-formed frames have every
column exactly as long as the geometry column. -/
structure Frame (G : Type) where
  geoms : List G
  cols : List (String × List Cell)

/-- Number of rows of a frame. -/
def Frame.numRows (df : Frame G) : ℕ := df.geoms.length

/-- Column-presence test, as in: colname in gdf.columns. -/
def Frame.hasCol (df : Frame G) (c : String) : Bool :=
  df.cols.any (fun p => p.1 == c)

/-- Column lookup gdf[c]; the empty list stands for a missing column
(the pipeline only reads columns it has checked or just written). -/
def Frame.getCol (df : Frame G) (c : String) : List Cell :=
  match df.cols.find? (fun p => p.1 == c) with
  | some p => p.2
  | none => []

/-- Column assignment gdf[c] = v: pandas overwrites an existing column
in place and appends a new one at the end of the column order. -/
def Frame.setCol (df : Frame G) (c : String) (v : List Cell) : Frame G :=
  if df.hasCol c then
    { df with cols := df.cols.map (fun p => if p.1 == c then (c, v) else p) }
  else
    { df with cols := df.cols ++ [(c, v)] }

/-- All columns are exactly as long as the geometry column. -/
def Frame.WF (df : Frame G) : Prop :=
  ∀ p ∈ df.cols, p.2.length = df.geoms.length

/-- gdf_infra.distance(pt).min() for a nonempty infrastructure layer:
minimum over the layer of the planar distance from each infrastructure
geometry to the point pt.  The distance function itself is shapely's,
taken as a parameter. -/
def minLayerDist (distToPoint : I → P → ℚ) (layer : List I) (pt : P) : ℚ :=
  match layer.map (fun ig => distToPoint ig pt) with
  | [] => 0
  | d :: ds => ds.foldl min d

/-- compute_nearest (app.py lines 44-52): for each infrastructure key,
in dict insertion order, write the column dist_<key>; an empty layer
yields a NaN column (np.nan broadcast), a nonempty one the minimum
distance from each candidate's centroid to the layer. -/
def compute_nearest (centroid : G → P) (distToPoint : I → P → ℚ)
    (gdf : Frame G) (infra : List (String × List I)) : Frame G :=
  infra.foldl
    (fun acc kv =>
      if kv.2.isEmpty then
        acc.setCol ("dist_" ++ kv.1) (acc.geoms.map (fun _ => Cell.nan))
      else
        acc.setCol ("dist_" ++ kv.1)
          (acc.geoms.map (fun g =>
            Cell.num (minLayerDist distToPoint kv.2 (centroid g)))))
    gdf

/-- The min-max expression (xs - xs.min()) / (xs.max() - xs.min() + 1e-9)
used in app.py lines 60-61 and 67 (scalar min/max, elementwise rest). -/
def minmaxScale (xs : List Cell) : List Cell :=
  let lo := colMin xs
  let denom := ((colMax xs).subc lo).addc (.num EPS)
  xs.map (fun c => (c.subc lo).divc denom)

/-- The density step of scoring_logic (app.py lines 55-58): a missing
dens_sqkm column is created as the constant 1; a present one is
coerced to numeric with unparseable values (and NaN) filled with 0. -/
def densStep (gdf : Frame G) : Frame G :=
  if gdf.hasCol "dens_sqkm" then
    gdf.setCol "dens_sqkm"
      ((gdf.getCol "dens_sqkm").map (fun c => fillna0 (toNumericCoerce c)))
  else
    gdf.setCol "dens_sqkm" (gdf.geoms.map (fun _ => Cell.num 1))

/-- One iteration of the key loop of scoring_logic (app.py lines 63-69):
with a dist_<key> column present, <key>_score = 1 - minmax(dist);
otherwise <key>_score is the constant 0. -/
def scoreKeyStep (gdf : Frame G) (key : String) : Frame G :=
  if gdf.hasCol ("dist_" ++ key) then
    gdf.setCol (key ++ "_score")
      ((minmaxScale (gdf.getCol ("dist_" ++ key))).map Cell.oneSubc)
  else
    gdf.setCol (key ++ "_score") (gdf.geoms.map (fun _ => Cell.num 0))

/-- The fixed density weight 0.4 of app.py line 72. -/
def W_DENS : ℚ := 0.4

/-- The fixed health weight 0.2 of app.py line 73. -/
def W_HEALTH : ℚ := 0.2

/-- The fixed police weight 0.2 of app.py line 74. -/
def W_POLICE : ℚ := 0.2

/-- The fixed roads weight 0.2 of app.py line 75. -/
def W_ROADS : ℚ := 0.2

/-- The composite score column (app.py lines 71-76):
0.4*dens_score + 0.2*health_score + 0.2*police_score + 0.2*roads_score,
elementwise over index-aligned columns. -/
def combineScore (d h p r : List Cell) : List Cell :=
  List.zipWith Cell.addc
    (List.zipWith Cell.addc
      (List.zipWith Cell.addc
        (d.map (Cell.smulc W_DENS)) (h.map (Cell.smulc W_HEALTH)))
      (p.map (Cell.smulc W_POLICE)))
    (r.map (Cell.smulc W_ROADS))

/-- The dens_score assignment of app.py lines 60-61. -/
def densScoreStep (gdf : Frame G) : Frame G :=
  gdf.setCol "dens_score" (minmaxScale (gdf.getCol "dens_sqkm"))

/-- app.py lines 55-69: the density coercion, the dens_score column and
the three key-score columns, in program order. -/
def scoreStage (gdf : Frame G) : Frame G :=
  scoreKeyStep (scoreKeyStep (scoreKeyStep (densScoreStep (densStep gdf)) "health")
    "police") "roads"

/-- The column-building part of scoring_logic (app.py lines 54-76),
before the final sort. -/
def scoringCols (gdf : Frame G) : Frame G :=
  (scoreStage gdf).setCol "score"
    (combineScore ((scoreStage gdf).getCol "dens_score")
      ((scoreStage gdf).getCol "health_score")
      ((scoreStage gdf).getCol "police_score")
      ((scoreStage gdf).getCol "roads_score"))

/-- Row order produced by sorting indices on a value column in
descending order with ties kept in original order: index i precedes
index j exactly when i's value is larger, or the values are equal and
i comes first.  On distinct indices this is a linear order, so sorting
by it is the stable descending sort. -/
def rdesc (val : ℕ → ℚ) (i j : ℕ) : Prop :=
  val j < val i ∨ (val i = val j ∧ i ≤ j)

instance (val : ℕ → ℚ) : DecidableRel (rdesc val) := fun i j => by
  unfold rdesc; infer_instance

/-- The index order of gdf.sort_values(by=col, ascending=False): the
non-NaN row indices in descending value order, followed by the NaN row
indices in original order (na_position=last default).  The default
sort kind (quicksort) leaves the relative order of tied values
unspecified; this embedding determinizes it as the stable order (ties
in original position order), the behaviour of pandas' nargsort —
reverse, ascending argsort, reverse — whenever the underlying argsort
is stable.  The development relies on this order only for properties
that hold for every tie-break: which rows appear (a permutation of
0..N-1, NaN rows last) and the descending arrangement of distinct
values. -/
def sortIndices (scores : List Cell) : List ℕ :=
  let n := scores.length
  let isnan := fun i => (scores.getD i Cell.nan).isNanc
  let val := fun i => (scores.getD i Cell.nan).qval
  List.insertionSort (rdesc val) ((List.range n).filter (fun i => !(isnan i)))
    ++ (List.range n).filter (fun i => isnan i)

/-- One column reindexed by the chosen row order. -/
def reorderCol (idx : List ℕ) (col : List Cell) : List Cell :=
  idx.map (fun i => col.getD i Cell.nan)

/-- Reindexing of a frame by a list of row indices: the row order the
sort chose, applied to the geometry column and every attribute column
alike (pandas moves whole rows). -/
def reorderRows [Inhabited G] (df : Frame G) (idx : List ℕ) : Frame G :=
  { geoms := idx.map (fun i => df.geoms.getD i default),
    cols := df.cols.map (fun p => (p.1, reorderCol idx p.2)) }

/-- gdf.sort_values(by=score, ascending=False).copy() of app.py line
78.  The .copy() of the source concerns Python object identity only;
in this pure embedding the result is a fresh value by construction. -/
def sortValuesScoreDesc [Inhabited G] (df : Frame G) : Frame G :=
  reorderRows df (sortIndices (df.getCol "score"))

/-- scoring_logic (app.py lines 54-78): build the score columns, then
return the frame sorted by score descending. -/
def scoring_logic [Inhabited G] (gdf : Frame G) : Frame G :=
  sortValuesScoreDesc (scoringCols gdf)

/-- gdf.head(n): the first n rows of every column. -/
def Frame.headN (df : Frame G) (n : ℕ) : Frame G :=
  { geoms := df.geoms.take n,
    cols := df.cols.map (fun p => (p.1, p.2.take n)) }

/-- An uploaded layer as read by gpd.read_file: an optional coordinate
reference system (its EPSG code) and geometries. -/
structure RawLayer (G : Type) where
  crs : Option ℕ
  geoms : List G

/-- gdf.set_crs(epsg=e, inplace=True): declares the reference system
without touching coordinates. -/
def RawLayer.set_crs (L : RawLayer G) (e : ℕ) : RawLayer G :=
  { L with crs := some e }

/-- gdf.to_crs(epsg=e): reprojects every geometry from the current
system to e and records e; the coordinate transformation itself is
pyproj's, taken as the parameter reproj.  (GeoPandas raises on a layer
with no CRS; the pipeline only calls to_crs after the CRS is set, so
the stand-in source code 0 is unreachable.) -/
def RawLayer.to_crs (L : RawLayer G) (reproj : ℕ → ℕ → G → G) (e : ℕ) : RawLayer G :=
  { crs := some e, geoms := L.geoms.map (reproj (L.crs.getD 0) e) }

/-- The CRS normalization of the upload handler (app.py lines 121-129):
an undefined CRS is forced to EPSG:4326; a defined CRS other than 4326
is first reprojected to 4326; then, in every case, the layer is
reprojected to the metric EPSG:32733. -/
def normalizeUploadCrs (reproj : ℕ → ℕ → G → G) (gdf : RawLayer G) : RawLayer G :=
  let g1 :=
    if gdf.crs = none then gdf.set_crs 4326
    else if gdf.crs ≠ some 4326 then gdf.to_crs reproj 4326
    else gdf
  g1.to_crs reproj 32733

/-- The text after the last dot of a name, as a character list:
python rsplit with separator dot and maxsplit 1, component 1. -/
def extAfterLastDot (cs : List Char) : List Char :=
  (cs.reverse.takeWhile (fun ch => ch ≠ '.')).reverse

/-- allowed_file (app.py lines 27-28): the name contains a dot and the
lowercased text after the last dot is the zip extension.  (String
operations are carried out on the underlying character lists.) -/
def allowed_file (filename : String) : Bool :=
  filename.data.contains '.' &&
    ((extAfterLastDot filename.data).map Char.toLower == "zip".data)

/-- A JSON response of the upload route: jsonify with message Error
plus an error text, or message Success plus the GeoJSON location. -/
inductive UploadResp where
  | errResp (msg : String)
  | okResp (geojson : String)
deriving DecidableEq, Repr

/-- The first file of the extraction directory listing whose name ends
in .shp (app.py lines 106-110), joined to the extraction folder path. -/
def findShpFile (files : List String) : Option String :=
  (files.find? (fun f => ".shp".data.isSuffixOf f.data)).map
    (fun f => "uploads/shapefile_extracted/" ++ f)

/-- One upload request, with the effectful library steps abstracted as
their outcomes: extractListing is file.save + extract_zip + os.listdir
(an exception, or the directory listing in OS order); processShp is
everything from gpd.read_file through top5.to_file for the chosen
shapefile path (an exception, or success). -/
structure UploadReq where
  hasFilePart : Bool
  filename : String
  extractListing : Except String (List String)
  processShp : String → Except String Unit

/-- The try-block body of the upload route (app.py lines 89-145): an
ok value is a returned response, an error is a Python exception
escaping the block. -/
def uploadBody (req : UploadReq) : Except String UploadResp :=
  if req.hasFilePart = false then
    .ok (.errResp "No file part in the request")
  else if req.filename = "" then
    .ok (.errResp "No selected file")
  else if allowed_file req.filename = false then
    .ok (.errResp "Only .zip shapefiles are supported")
  else
    match req.extractListing with
    | .error e => .error e
    | .ok files =>
      match findShpFile files with
      | none => .ok (.errResp "No .shp file found in ZIP")
      | some shp =>
        match req.processShp shp with
        | .error e => .error e
        | .ok _ => .ok (.okResp "uploads/top5.geojson")

/-- The upload route (app.py lines 86-148): the try body, with any
exception caught and surfaced as jsonify message Error carrying
str(e). -/
def upload_route (req : UploadReq) : UploadResp :=
  match uploadBody req with
  | .ok r => r
  | .error e => .errResp e

section FrameLemmas

variable {G : Type}

lemma find?_map_upd_self (c : String) (v : List Cell) :
    ∀ l : List (String × List Cell), l.any (fun p => p.1 == c) = true →
      (l.map (fun p => if p.1 == c then (c, v) else p)).find? (fun p => p.1 == c) =
        some (c, v) := by
  intro l
  induction l with
  | nil => intro hl; simp at hl
  | cons p l ih =>
    intro hl
    rw [List.map_cons]
    by_cases h : p.1 = c
    · rw [if_pos (by simp [h]), List.find?_cons_of_pos _ (by simp)]
    · rw [if_neg (by simp [h]), List.find?_cons_of_neg _ (by simp [h])]
      apply ih
      have hp : (p.1 == c) = false := by simp [h]
      rw [List.any_cons, hp, Bool.false_or] at hl
      exact hl

lemma find?_map_upd_ne (c c' : String) (v : List Cell) (hne : c' ≠ c) :
    ∀ l : List (String × List Cell),
      (l.map (fun p => if p.1 == c then (c, v) else p)).find? (fun p => p.1 == c') =
        l.find? (fun p => p.1 == c') := by
  intro l
  induction l with
  | nil => rfl
  | cons p l ih =>
    rw [List.map_cons]
    by_cases h : p.1 = c
    · rw [if_pos (by simp [h]), List.find?_cons_of_neg _ (by simp [hne.symm]),
        List.find?_cons_of_neg _ (by simp [h, hne.symm]), ih]
    · rw [if_neg (by simp [h])]
      by_cases h2 : p.1 = c'
      · rw [List.find?_cons_of_pos _ (by simp [h2]), List.find?_cons_of_pos _ (by simp [h2])]
      · rw [List.find?_cons_of_neg _ (by simp [h2]), List.find?_cons_of_neg _ (by simp [h2]), ih]

lemma any_map_upd (c c' : String) (v : List Cell) (l : List (String × List Cell)) :
    (l.map (fun p => if p.1 == c then (c, v) else p)).any (fun p => p.1 == c') =
      l.any (fun p => p.1 == c') := by
  induction l with
  | nil => rfl
  | cons p l ih =>
    rw [List.map_cons, List.any_cons, List.any_cons, ih]
    congr 1
    by_cases h : p.1 = c
    · rw [if_pos (by simp [h])]
      simp [h]
    · rw [if_neg (by simp [h])]

lemma Frame.geoms_setCol (df : Frame G) (c : String) (v : List Cell) :
    (df.setCol c v).geoms = df.geoms := by
  rw [Frame.setCol]
  split <;> rfl

lemma Frame.numRows_setCol (df : Frame G) (c : String) (v : List Cell) :
    (df.setCol c v).numRows = df.numRows := by
  rw [Frame.numRows, Frame.numRows, Frame.geoms_setCol]

lemma Frame.getCol_setCol_self (df : Frame G) (c : String) (v : List Cell) :
    (df.setCol c v).getCol c = v := by
  rw [Frame.setCol]
  by_cases h : df.hasCol c
  · rw [if_pos h]
    rw [Frame.hasCol] at h
    simp only [Frame.getCol]
    rw [find?_map_upd_self c v df.cols h]
  · rw [if_neg h]
    simp only [Frame.getCol]
    rw [List.find?_append]
    have hn : df.cols.find? (fun p => p.1 == c) = none := by
      rw [List.find?_eq_none]
      intro p hp hpc
      rw [Frame.hasCol] at h
      exact h (List.any_eq_true.mpr ⟨p, hp, hpc⟩)
    rw [hn]
    simp

lemma Frame.getCol_setCol_ne (df : Frame G) (c c' : String) (v : List Cell)
    (hne : c' ≠ c) : (df.setCol c v).getCol c' = df.getCol c' := by
  rw [Frame.setCol]
  by_cases h : df.hasCol c
  · rw [if_pos h]
    simp only [Frame.getCol]
    rw [find?_map_upd_ne c c' v hne]
  · rw [if_neg h]
    simp only [Frame.getCol]
    rw [List.find?_append]
    have h1 : [(c, v)].find? (fun p => p.1 == c') = none := by
      rw [List.find?_eq_none]
      intro p hp hpc
      simp only [List.mem_singleton] at hp
      rw [hp] at hpc
      simp [hne.symm] at hpc
    rw [h1, Option.or_none]

lemma Frame.hasCol_setCol_self (df : Frame G) (c : String) (v : List Cell) :
    (df.setCol c v).hasCol c = true := by
  rw [Frame.setCol]
  by_cases h : df.hasCol c
  · rw [if_pos h]
    rw [Frame.hasCol] at h ⊢
    rw [any_map_upd]
    exact h
  · rw [if_neg h]
    rw [Frame.hasCol, List.any_append]
    simp

lemma Frame.hasCol_setCol_ne (df : Frame G) (c c' : String) (v : List Cell)
    (hne : c' ≠ c) : (df.setCol c v).hasCol c' = df.hasCol c' := by
  rw [Frame.setCol]
  by_cases h : df.hasCol c
  · rw [if_pos h]
    rw [Frame.hasCol, Frame.hasCol, any_map_upd]
  · rw [if_neg h]
    rw [Frame.hasCol, Frame.hasCol, List.any_append]
    have h1 : [(c, v)].any (fun p => p.1 == c') = false := by simp [hne.symm]
    rw [h1, Bool.or_false]

lemma Frame.WF_setCol (df : Frame G) (c : String) (v : List Cell)
    (hwf : df.WF) (hv : v.length = df.geoms.length) : (df.setCol c v).WF := by
  intro p hp
  rw [Frame.geoms_setCol]
  rw [Frame.setCol] at hp
  split at hp
  · simp only [List.mem_map] at hp
    obtain ⟨q, hq, hqe⟩ := hp
    by_cases h : q.1 = c
    · rw [if_pos (by simp [h])] at hqe
      rw [← hqe]
      exact hv
    · rw [if_neg (by simp [h])] at hqe
      rw [← hqe]
      exact hwf q hq
  · rw [List.mem_append] at hp
    cases hp with
    | inl h => exact hwf p h
    | inr h =>
      simp only [List.mem_singleton] at h
      rw [h]
      exact hv

lemma Frame.length_getCol (df : Frame G) (c : String) (hwf : df.WF)
    (hc : df.hasCol c = true) : (df.getCol c).length = df.geoms.length := by
  rw [Frame.hasCol, List.any_eq_true] at hc
  obtain ⟨p, hp, hpc⟩ := hc
  simp only [Frame.getCol]
  cases hf : df.cols.find? (fun q => q.1 == c) with
  | none =>
    rw [List.find?_eq_none] at hf
    exact absurd hpc (hf p hp)
  | some q =>
    exact hwf q (List.mem_of_find?_eq_some hf)

lemma Frame.getCol_of_not_hasCol (df : Frame G) (c : String)
    (hc : df.hasCol c = false) : df.getCol c = [] := by
  simp only [Frame.getCol]
  have hn : df.cols.find? (fun p => p.1 == c) = none := by
    rw [List.find?_eq_none]
    intro p hp hpc
    rw [Frame.hasCol] at hc
    have h2 : df.cols.any (fun p => p.1 == c) = true := List.any_eq_true.mpr ⟨p, hp, hpc⟩
    rw [hc] at h2
    exact absurd h2 (by simp)
  rw [hn]

end FrameLemmas

section PositionalLemmas

lemma getD_map {α β : Type} (f : α → β) (l : List α) (i : ℕ) (d : α) (d2 : β)
    (hi : i < l.length) : (l.map f).getD i d2 = f (l.getD i d) := by
  rw [List.getD_eq_getElem?_getD, List.getD_eq_getElem?_getD, List.getElem?_map,
    List.getElem?_eq_getElem hi]
  simp

lemma getD_zipWith {α : Type} (f : α → α → α) (a b : List α) (i : ℕ) (d : α)
    (ha : i < a.length) (hb : i < b.length) :
    (List.zipWith f a b).getD i d = f (a.getD i d) (b.getD i d) := by
  rw [List.getD_eq_getElem?_getD, List.getD_eq_getElem?_getD, List.getD_eq_getElem?_getD,
    List.getElem?_zipWith, List.getElem?_eq_getElem ha, List.getElem?_eq_getElem hb]
  simp

lemma mem_getD {α : Type} (l : List α) (i : ℕ) (d : α) (hi : i < l.length) :
    l.getD i d ∈ l := by
  rw [List.getD_eq_getElem?_getD, List.getElem?_eq_getElem hi]
  exact List.getElem_mem hi

lemma map_getD_range {α : Type} (l : List α) (d : α) :
    (List.range l.length).map (fun i => l.getD i d) = l := by
  apply List.ext_getElem
  · simp
  · intro i h1 h2
    simp [List.getD_eq_getElem?_getD, List.getElem?_eq_getElem h2]

lemma foldl_min_le (q : ℚ) (qs : List ℚ) : ∀ x ∈ q :: qs, qs.foldl min q ≤ x := by
  induction qs generalizing q with
  | nil => intro x hx; simp at hx; simp [hx]
  | cons a qs ih =>
    intro x hx
    rw [List.foldl_cons]
    rcases List.mem_cons.mp hx with h | h
    · exact le_trans (le_trans (ih (min q a) (min q a) (List.mem_cons_self _ _)) (min_le_left q a)) (le_of_eq h.symm)
    · rcases List.mem_cons.mp h with h2 | h2
      · exact le_trans (le_trans (ih (min q a) (min q a) (List.mem_cons_self _ _)) (min_le_right q a)) (le_of_eq h2.symm)
      · exact ih (min q a) x (List.mem_cons_of_mem _ h2)

lemma le_foldl_max (q : ℚ) (qs : List ℚ) : ∀ x ∈ q :: qs, x ≤ qs.foldl max q := by
  induction qs generalizing q with
  | nil => intro x hx; simp at hx; simp [hx]
  | cons a qs ih =>
    intro x hx
    rw [List.foldl_cons]
    rcases List.mem_cons.mp hx with h | h
    · exact le_trans (le_of_eq h) (le_trans (le_max_left q a) (ih (max q a) (max q a) (List.mem_cons_self _ _)))
    · rcases List.mem_cons.mp h with h2 | h2
      · exact le_trans (le_of_eq h2) (le_trans (le_max_right q a) (ih (max q a) (max q a) (List.mem_cons_self _ _)))
      · exact ih (max q a) x (List.mem_cons_of_mem _ h2)

end PositionalLemmas

section MinMaxLemmas

lemma mem_numsOf (xs : List Cell) (q : ℚ) (c : Cell) (hc : c ∈ xs)
    (hq : c = Cell.num q) : q ∈ numsOf xs := by
  rw [numsOf, List.mem_filterMap]
  exact ⟨c, hc, by rw [hq]; rfl⟩

lemma of_mem_numsOf (xs : List Cell) (q : ℚ) (hq : q ∈ numsOf xs) :
    Cell.num q ∈ xs := by
  rw [numsOf, List.mem_filterMap] at hq
  obtain ⟨c, hc, hcq⟩ := hq
  cases c with
  | num p =>
    rw [Cell.qnum] at hcq
    injection hcq with h
    rw [← h]
    exact hc
  | nan => simp [Cell.qnum] at hcq
  | other => simp [Cell.qnum] at hcq

lemma numsOf_ne_nil (xs : List Cell) (hne : xs ≠ [])
    (hall : ∀ c ∈ xs, c.isNumc = true) : numsOf xs ≠ [] := by
  cases xs with
  | nil => exact absurd rfl hne
  | cons c l =>
    have hc := hall c (List.mem_cons_self _ _)
    cases c with
    | num q =>
      exact List.ne_nil_of_mem (mem_numsOf _ q _ (List.mem_cons_self _ _) rfl)
    | nan => simp [Cell.isNumc] at hc
    | other => simp [Cell.isNumc] at hc

lemma colMin_num (xs : List Cell) (h : numsOf xs ≠ []) :
    ∃ m, colMin xs = Cell.num m := by
  cases hh : numsOf xs with
  | nil => exact absurd hh h
  | cons a as => exact ⟨as.foldl min a, by rw [colMin, hh]⟩

lemma colMax_num (xs : List Cell) (h : numsOf xs ≠ []) :
    ∃ m, colMax xs = Cell.num m := by
  cases hh : numsOf xs with
  | nil => exact absurd hh h
  | cons a as => exact ⟨as.foldl max a, by rw [colMax, hh]⟩

lemma colMin_le (xs : List Cell) (m : ℚ) (hm : colMin xs = Cell.num m) :
    ∀ q ∈ numsOf xs, m ≤ q := by
  intro q hq
  cases hh : numsOf xs with
  | nil => rw [hh] at hq; exact absurd hq (by simp)
  | cons a as =>
    rw [colMin, hh] at hm
    injection hm with h2
    rw [← h2]
    rw [hh] at hq
    exact foldl_min_le a as q hq

lemma le_colMax (xs : List Cell) (m : ℚ) (hm : colMax xs = Cell.num m) :
    ∀ q ∈ numsOf xs, q ≤ m := by
  intro q hq
  cases hh : numsOf xs with
  | nil => rw [hh] at hq; exact absurd hq (by simp)
  | cons a as =>
    rw [colMax, hh] at hm
    injection hm with h2
    rw [← h2]
    rw [hh] at hq
    exact le_foldl_max a as q hq

lemma EPS_pos : 0 < EPS := by rw [EPS]; norm_num

lemma length_minmaxScale (xs : List Cell) : (minmaxScale xs).length = xs.length := by
  simp [minmaxScale]

lemma minmaxScale_getD (xs : List Cell) (i : ℕ) (hi : i < xs.length) :
    (minmaxScale xs).getD i Cell.nan =
      ((xs.getD i Cell.nan).subc (colMin xs)).divc
        (((colMax xs).subc (colMin xs)).addc (Cell.num EPS)) := by
  simp only [minmaxScale]
  exact getD_map _ xs i Cell.nan Cell.nan hi

lemma minmaxScale_bounds (xs : List Cell) (hne : xs ≠ [])
    (hall : ∀ c ∈ xs, c.isNumc = true) :
    ∀ c' ∈ minmaxScale xs, ∃ q', c' = Cell.num q' ∧ 0 ≤ q' ∧ q' ≤ 1 := by
  have hnn := numsOf_ne_nil xs hne hall
  obtain ⟨m, hm⟩ := colMin_num xs hnn
  obtain ⟨M, hM⟩ := colMax_num xs hnn
  intro c' hc'
  simp only [minmaxScale] at hc'
  rw [List.mem_map] at hc'
  obtain ⟨c, hc, hce⟩ := hc'
  have hcn := hall c hc
  cases c with
  | nan => exact absurd hcn (by simp [Cell.isNumc])
  | other => exact absurd hcn (by simp [Cell.isNumc])
  | num q =>
    have hmq : m ≤ q := colMin_le xs m hm q (mem_numsOf xs q _ hc rfl)
    have hqM : q ≤ M := le_colMax xs M hM q (mem_numsOf xs q _ hc rfl)
    have hD : (0 : ℚ) < M - m + EPS := by
      have : (0 : ℚ) ≤ M - m := by linarith
      have := EPS_pos
      linarith
    rw [hm, hM] at hce
    simp only [Cell.subc, Cell.addc, Cell.divc] at hce
    rw [if_neg (by exact ne_of_gt hD)] at hce
    refine ⟨(q - m) / (M - m + EPS), hce.symm, ?_, ?_⟩
    · apply div_nonneg (by linarith) (le_of_lt hD)
    · rw [div_le_one hD]
      have := EPS_pos
      linarith

lemma foldl_min_const (k : ℚ) : ∀ as : List ℚ, (∀ x ∈ as, x = k) →
    as.foldl min k = k := by
  intro as
  induction as with
  | nil => intro _; rfl
  | cons a as ih =>
    intro h
    rw [List.foldl_cons, h a (List.mem_cons_self _ _), min_self]
    exact ih (fun x hx => h x (List.mem_cons_of_mem _ hx))

lemma foldl_max_const (k : ℚ) : ∀ as : List ℚ, (∀ x ∈ as, x = k) →
    as.foldl max k = k := by
  intro as
  induction as with
  | nil => intro _; rfl
  | cons a as ih =>
    intro h
    rw [List.foldl_cons, h a (List.mem_cons_self _ _), max_self]
    exact ih (fun x hx => h x (List.mem_cons_of_mem _ hx))

lemma numsOf_const (xs : List Cell) (k : ℚ) (hall : ∀ c ∈ xs, c = Cell.num k) :
    ∀ q ∈ numsOf xs, q = k := by
  intro q hq
  have h2 := of_mem_numsOf xs q hq
  have h3 := hall _ h2
  injection h3

lemma colMin_const (xs : List Cell) (k : ℚ) (hne : xs ≠ [])
    (hall : ∀ c ∈ xs, c = Cell.num k) : colMin xs = Cell.num k := by
  have hnn : numsOf xs ≠ [] := by
    cases xs with
    | nil => exact absurd rfl hne
    | cons c l =>
      exact List.ne_nil_of_mem (mem_numsOf _ k _ (List.mem_cons_self _ _)
        (hall c (List.mem_cons_self _ _)))
  cases hh : numsOf xs with
  | nil => exact absurd hh hnn
  | cons a as =>
    have hconst := numsOf_const xs k hall
    rw [hh] at hconst
    have ha : a = k := hconst a (List.mem_cons_self _ _)
    have hcm : colMin xs = Cell.num (as.foldl min a) := by rw [colMin, hh]
    rw [hcm, ha, foldl_min_const k as
      (fun x hx => hconst x (List.mem_cons_of_mem _ hx))]

lemma colMax_const (xs : List Cell) (k : ℚ) (hne : xs ≠ [])
    (hall : ∀ c ∈ xs, c = Cell.num k) : colMax xs = Cell.num k := by
  have hnn : numsOf xs ≠ [] := by
    cases xs with
    | nil => exact absurd rfl hne
    | cons c l =>
      exact List.ne_nil_of_mem (mem_numsOf _ k _ (List.mem_cons_self _ _)
        (hall c (List.mem_cons_self _ _)))
  cases hh : numsOf xs with
  | nil => exact absurd hh hnn
  | cons a as =>
    have hconst := numsOf_const xs k hall
    rw [hh] at hconst
    have ha : a = k := hconst a (List.mem_cons_self _ _)
    have hcm : colMax xs = Cell.num (as.foldl max a) := by rw [colMax, hh]
    rw [hcm, ha, foldl_max_const k as
      (fun x hx => hconst x (List.mem_cons_of_mem _ hx))]

lemma minmaxScale_const (xs : List Cell) (k : ℚ) (hne : xs ≠ [])
    (hall : ∀ c ∈ xs, c = Cell.num k) :
    ∀ c' ∈ minmaxScale xs, c' = Cell.num 0 := by
  intro c' hc'
  simp only [minmaxScale] at hc'
  rw [List.mem_map] at hc'
  obtain ⟨c, hc, hce⟩ := hc'
  rw [hall c hc, colMin_const xs k hne hall, colMax_const xs k hne hall] at hce
  simp only [Cell.subc, Cell.addc, Cell.divc] at hce
  rw [if_neg (by have := EPS_pos; intro hh; rw [sub_self] at hh; linarith)] at hce
  rw [← hce]
  norm_num

end MinMaxLemmas

section SortLemmas

instance (val : ℕ → ℚ) : IsTotal ℕ (rdesc val) where
  total := by
    intro a b
    rw [rdesc, rdesc]
    rcases lt_trichotomy (val a) (val b) with h | h | h
    · right; left; exact h
    · rcases le_total a b with h2 | h2
      · left; right; exact ⟨h, h2⟩
      · right; right; exact ⟨h.symm, h2⟩
    · left; left; exact h

instance (val : ℕ → ℚ) : IsTrans ℕ (rdesc val) where
  trans := by
    intro a b c hab hbc
    rw [rdesc] at hab hbc ⊢
    rcases hab with h1 | h1 <;> rcases hbc with h2 | h2
    · left; exact lt_trans h2 h1
    · left; rw [← h2.1]; exact h1
    · left; rw [h1.1]; exact h2
    · right; exact ⟨h1.1.trans h2.1, le_trans h1.2 h2.2⟩

lemma sortIndices_def (s : List Cell) :
    sortIndices s =
      List.insertionSort (rdesc (fun i => (s.getD i Cell.nan).qval))
        ((List.range s.length).filter (fun i => !((s.getD i Cell.nan).isNanc)))
      ++ (List.range s.length).filter (fun i => (s.getD i Cell.nan).isNanc) := rfl

lemma sortIndices_perm (s : List Cell) :
    List.Perm (sortIndices s) (List.range s.length) := by
  rw [sortIndices_def]
  refine List.Perm.trans
    ((List.perm_insertionSort _ _).append (List.Perm.refl _)) ?_
  have h2 : (List.range s.length).filter (fun i => (s.getD i Cell.nan).isNanc) =
      (List.range s.length).filter (fun i => !(!((s.getD i Cell.nan).isNanc))) :=
    (List.filter_congr (fun a _ => by rw [Bool.not_not])).symm
  rw [h2]
  exact List.filter_append_perm _ _

lemma sortIndices_mem_lt (s : List Cell) (i : ℕ) (hi : i ∈ sortIndices s) :
    i < s.length :=
  List.mem_range.mp ((sortIndices_perm s).mem_iff.mp hi)

lemma sortIndices_length (s : List Cell) : (sortIndices s).length = s.length := by
  simpa using (sortIndices_perm s).length_eq

lemma sortIndices_nodup (s : List Cell) : (sortIndices s).Nodup :=
  (sortIndices_perm s).symm.nodup (List.nodup_range _)

lemma sortIndices_of_noNaN (s : List Cell) (hn : ∀ c ∈ s, c.isNanc = false) :
    sortIndices s =
      List.insertionSort (rdesc (fun i => (s.getD i Cell.nan).qval))
        (List.range s.length) := by
  rw [sortIndices_def]
  have hfilter : ∀ i ∈ List.range s.length, (!((s.getD i Cell.nan).isNanc)) = true := by
    intro i hi
    rw [hn _ (mem_getD s i Cell.nan (List.mem_range.mp hi))]
    rfl
  have hnil : (List.range s.length).filter (fun i => (s.getD i Cell.nan).isNanc) = [] := by
    apply List.filter_eq_nil_iff.mpr
    intro i hi
    rw [hn _ (mem_getD s i Cell.nan (List.mem_range.mp hi))]
    simp
  rw [List.filter_eq_self.mpr hfilter, hnil, List.append_nil]

lemma sortIndices_sorted_of_noNaN (s : List Cell)
    (hn : ∀ c ∈ s, c.isNanc = false) :
    (sortIndices s).Pairwise (rdesc (fun i => (s.getD i Cell.nan).qval)) := by
  rw [sortIndices_of_noNaN s hn]
  exact List.sorted_insertionSort _ _

lemma sortIndices_pairwise_strict (s : List Cell)
    (hn : ∀ c ∈ s, c.isNanc = false) :
    (sortIndices s).Pairwise (fun i j =>
      (s.getD j Cell.nan).qval < (s.getD i Cell.nan).qval ∨
      ((s.getD i Cell.nan).qval = (s.getD j Cell.nan).qval ∧ i < j)) := by
  have h1 := sortIndices_sorted_of_noNaN s hn
  have h2 : (sortIndices s).Pairwise (fun i j => i ≠ j) := sortIndices_nodup s
  refine (h1.and h2).imp (fun hab => ?_)
  obtain ⟨hr, hne⟩ := hab
  rw [rdesc] at hr
  rcases hr with h | ⟨heq, hle⟩
  · left; exact h
  · right; exact ⟨heq, lt_of_le_of_ne hle hne⟩

lemma any_map_snd (f : List Cell → List Cell) (c : String) :
    ∀ l : List (String × List Cell),
      (l.map (fun p => (p.1, f p.2))).any (fun p => p.1 == c) =
        l.any (fun p => p.1 == c) := by
  intro l
  induction l with
  | nil => rfl
  | cons p l ih => rw [List.map_cons, List.any_cons, List.any_cons, ih]

lemma find?_map_snd (f : List Cell → List Cell) (c : String) :
    ∀ l : List (String × List Cell),
      (l.map (fun p => (p.1, f p.2))).find? (fun p => p.1 == c) =
        (l.find? (fun p => p.1 == c)).map (fun p => (p.1, f p.2)) := by
  intro l
  induction l with
  | nil => rfl
  | cons p l ih =>
    by_cases h : p.1 = c
    · rw [List.map_cons, List.find?_cons_of_pos _ (by simp [h]),
        List.find?_cons_of_pos _ (by simp [h])]
      rfl
    · rw [List.map_cons, List.find?_cons_of_neg _ (by simp [h]),
        List.find?_cons_of_neg _ (by simp [h]), ih]

lemma Frame.geoms_reorderRows {G : Type} [Inhabited G] (df : Frame G) (idx : List ℕ) :
    (reorderRows df idx).geoms = idx.map (fun i => df.geoms.getD i default) := rfl

lemma Frame.numRows_reorderRows {G : Type} [Inhabited G] (df : Frame G) (idx : List ℕ) :
    (reorderRows df idx).numRows = idx.length := by
  rw [Frame.numRows, Frame.geoms_reorderRows, List.length_map]

lemma Frame.hasCol_reorderRows {G : Type} [Inhabited G] (df : Frame G) (idx : List ℕ)
    (c : String) : (reorderRows df idx).hasCol c = df.hasCol c := by
  simp only [reorderRows, Frame.hasCol]
  exact any_map_snd (reorderCol idx) c df.cols

lemma Frame.getCol_reorderRows {G : Type} [Inhabited G] (df : Frame G) (idx : List ℕ)
    (c : String) (hc : df.hasCol c = true) :
    (reorderRows df idx).getCol c = reorderCol idx (df.getCol c) := by
  simp only [reorderRows, Frame.getCol]
  rw [find?_map_snd (reorderCol idx) c]
  cases hf : df.cols.find? (fun p => p.1 == c) with
  | none =>
    rw [Frame.hasCol, List.any_eq_true] at hc
    obtain ⟨p, hp, hpc⟩ := hc
    rw [List.find?_eq_none] at hf
    exact absurd hpc (hf p hp)
  | some p => rfl

lemma length_reorderCol (idx : List ℕ) (col : List Cell) :
    (reorderCol idx col).length = idx.length := by
  rw [reorderCol, List.length_map]

lemma getD_reorderCol (idx : List ℕ) (col : List Cell) (k : ℕ)
    (hk : k < idx.length) :
    (reorderCol idx col).getD k Cell.nan = col.getD (idx.getD k 0) Cell.nan := by
  rw [reorderCol]
  exact getD_map _ idx k 0 Cell.nan hk

lemma mem_reorderCol (idx : List ℕ) (col : List Cell) (c : Cell)
    (hmem : c ∈ reorderCol idx col) (hidx : ∀ i ∈ idx, i < col.length) :
    c ∈ col := by
  rw [reorderCol, List.mem_map] at hmem
  obtain ⟨i, hi, he⟩ := hmem
  rw [← he]
  exact mem_getD col i Cell.nan (hidx i hi)

lemma Frame.WF_reorderRows {G : Type} [Inhabited G] (df : Frame G) (idx : List ℕ) :
    (reorderRows df idx).WF := by
  intro p hp
  simp only [reorderRows] at hp ⊢
  rw [List.mem_map] at hp
  obtain ⟨q, hq, he⟩ := hp
  rw [← he]
  simp [reorderCol]

end SortLemmas

section StageLemmas

variable {G : Type}

lemma geoms_densStep (gdf : Frame G) : (densStep gdf).geoms = gdf.geoms := by
  rw [densStep]
  split <;> rw [Frame.geoms_setCol]

lemma geoms_densScoreStep (gdf : Frame G) :
    (densScoreStep gdf).geoms = gdf.geoms := by
  rw [densScoreStep, Frame.geoms_setCol]

lemma geoms_scoreKeyStep (gdf : Frame G) (key : String) :
    (scoreKeyStep gdf key).geoms = gdf.geoms := by
  rw [scoreKeyStep]
  split <;> rw [Frame.geoms_setCol]

lemma geoms_scoreStage (gdf : Frame G) : (scoreStage gdf).geoms = gdf.geoms := by
  rw [scoreStage, geoms_scoreKeyStep, geoms_scoreKeyStep, geoms_scoreKeyStep,
    geoms_densScoreStep, geoms_densStep]

lemma geoms_scoringCols (gdf : Frame G) : (scoringCols gdf).geoms = gdf.geoms := by
  rw [scoringCols, Frame.geoms_setCol, geoms_scoreStage]

lemma hasCol_densStep_self (gdf : Frame G) :
    (densStep gdf).hasCol "dens_sqkm" = true := by
  rw [densStep]
  split <;> exact Frame.hasCol_setCol_self _ _ _

lemma hasCol_densStep_ne (gdf : Frame G) (c : String) (h : c ≠ "dens_sqkm") :
    (densStep gdf).hasCol c = gdf.hasCol c := by
  rw [densStep]
  split <;> exact Frame.hasCol_setCol_ne _ _ _ _ h

lemma getCol_densStep_ne (gdf : Frame G) (c : String) (h : c ≠ "dens_sqkm") :
    (densStep gdf).getCol c = gdf.getCol c := by
  rw [densStep]
  split <;> exact Frame.getCol_setCol_ne _ _ _ _ h

lemma WF_densStep (gdf : Frame G) (hwf : gdf.WF) : (densStep gdf).WF := by
  by_cases h : gdf.hasCol "dens_sqkm"
  · rw [densStep, if_pos h]
    exact Frame.WF_setCol _ _ _ hwf
      (by rw [List.length_map]; exact Frame.length_getCol _ _ hwf h)
  · rw [densStep, if_neg h]
    exact Frame.WF_setCol _ _ _ hwf (by rw [List.length_map])

lemma getCol_densStep_dens_present (gdf : Frame G)
    (h : gdf.hasCol "dens_sqkm" = true) :
    (densStep gdf).getCol "dens_sqkm" =
      (gdf.getCol "dens_sqkm").map (fun c => fillna0 (toNumericCoerce c)) := by
  rw [densStep, if_pos h, Frame.getCol_setCol_self]

lemma getCol_densStep_dens_absent (gdf : Frame G)
    (h : gdf.hasCol "dens_sqkm" = false) :
    (densStep gdf).getCol "dens_sqkm" = gdf.geoms.map (fun _ => Cell.num 1) := by
  rw [densStep, if_neg (by rw [h]; simp), Frame.getCol_setCol_self]

lemma fillna0_toNumeric_isNum (c : Cell) :
    (fillna0 (toNumericCoerce c)).isNumc = true := by
  cases c <;> rfl

lemma dens_all_num (gdf : Frame G) :
    ∀ c ∈ (densStep gdf).getCol "dens_sqkm", c.isNumc = true := by
  by_cases h : gdf.hasCol "dens_sqkm"
  · rw [getCol_densStep_dens_present gdf h]
    intro c hc
    rw [List.mem_map] at hc
    obtain ⟨a, _, he⟩ := hc
    rw [← he]
    exact fillna0_toNumeric_isNum a
  · rw [getCol_densStep_dens_absent gdf (by simpa using h)]
    intro c hc
    rw [List.mem_map] at hc
    obtain ⟨a, _, he⟩ := hc
    rw [← he]
    rfl

lemma length_getCol_densStep_dens (gdf : Frame G) (hwf : gdf.WF) :
    ((densStep gdf).getCol "dens_sqkm").length = gdf.numRows := by
  by_cases h : gdf.hasCol "dens_sqkm"
  · rw [getCol_densStep_dens_present gdf h, List.length_map]
    exact Frame.length_getCol _ _ hwf h
  · rw [getCol_densStep_dens_absent gdf (by simpa using h), List.length_map]
    rfl

lemma hasCol_densScoreStep_ne (gdf : Frame G) (c : String)
    (h : c ≠ "dens_score") : (densScoreStep gdf).hasCol c = gdf.hasCol c := by
  rw [densScoreStep]
  exact Frame.hasCol_setCol_ne _ _ _ _ h

lemma getCol_densScoreStep_ne (gdf : Frame G) (c : String)
    (h : c ≠ "dens_score") : (densScoreStep gdf).getCol c = gdf.getCol c := by
  rw [densScoreStep]
  exact Frame.getCol_setCol_ne _ _ _ _ h

lemma getCol_densScoreStep_self (gdf : Frame G) :
    (densScoreStep gdf).getCol "dens_score" =
      minmaxScale (gdf.getCol "dens_sqkm") := by
  rw [densScoreStep, Frame.getCol_setCol_self]

lemma WF_densScoreStep (gdf : Frame G) (hwf : gdf.WF)
    (hc : gdf.hasCol "dens_sqkm" = true) : (densScoreStep gdf).WF := by
  rw [densScoreStep]
  exact Frame.WF_setCol _ _ _ hwf
    (by rw [length_minmaxScale]; exact Frame.length_getCol _ _ hwf hc)

lemma hasCol_scoreKeyStep_ne (gdf : Frame G) (key c : String)
    (h : c ≠ key ++ "_score") : (scoreKeyStep gdf key).hasCol c = gdf.hasCol c := by
  rw [scoreKeyStep]
  split <;> exact Frame.hasCol_setCol_ne _ _ _ _ h

lemma getCol_scoreKeyStep_ne (gdf : Frame G) (key c : String)
    (h : c ≠ key ++ "_score") : (scoreKeyStep gdf key).getCol c = gdf.getCol c := by
  rw [scoreKeyStep]
  split <;> exact Frame.getCol_setCol_ne _ _ _ _ h

lemma getCol_scoreKeyStep_present (gdf : Frame G) (key : String)
    (h : gdf.hasCol ("dist_" ++ key) = true) :
    (scoreKeyStep gdf key).getCol (key ++ "_score") =
      (minmaxScale (gdf.getCol ("dist_" ++ key))).map Cell.oneSubc := by
  rw [scoreKeyStep, if_pos h, Frame.getCol_setCol_self]

lemma getCol_scoreKeyStep_absent (gdf : Frame G) (key : String)
    (h : gdf.hasCol ("dist_" ++ key) = false) :
    (scoreKeyStep gdf key).getCol (key ++ "_score") =
      gdf.geoms.map (fun _ => Cell.num 0) := by
  rw [scoreKeyStep, if_neg (by rw [h]; simp), Frame.getCol_setCol_self]

lemma WF_scoreKeyStep (gdf : Frame G) (key : String) (hwf : gdf.WF) :
    (scoreKeyStep gdf key).WF := by
  by_cases h : gdf.hasCol ("dist_" ++ key)
  · rw [scoreKeyStep, if_pos h]
    exact Frame.WF_setCol _ _ _ hwf
      (by rw [List.length_map, length_minmaxScale]; exact Frame.length_getCol _ _ hwf h)
  · rw [scoreKeyStep, if_neg h]
    exact Frame.WF_setCol _ _ _ hwf (by rw [List.length_map])

lemma WF_scoreStage (gdf : Frame G) (hwf : gdf.WF) : (scoreStage gdf).WF := by
  rw [scoreStage]
  exact WF_scoreKeyStep _ _ (WF_scoreKeyStep _ _ (WF_scoreKeyStep _ _
    (WF_densScoreStep _ (WF_densStep gdf hwf) (hasCol_densStep_self gdf))))

end StageLemmas

section StageComposition

variable {G : Type}

lemma getCol_scoreStage_dens_sqkm (gdf : Frame G) :
    (scoreStage gdf).getCol "dens_sqkm" = (densStep gdf).getCol "dens_sqkm" := by
  rw [scoreStage, getCol_scoreKeyStep_ne _ "roads" _ (by decide),
    getCol_scoreKeyStep_ne _ "police" _ (by decide),
    getCol_scoreKeyStep_ne _ "health" _ (by decide),
    getCol_densScoreStep_ne _ _ (by decide)]

lemma getCol_scoreStage_dens_score (gdf : Frame G) :
    (scoreStage gdf).getCol "dens_score" =
      minmaxScale ((densStep gdf).getCol "dens_sqkm") := by
  rw [scoreStage, getCol_scoreKeyStep_ne _ "roads" _ (by decide),
    getCol_scoreKeyStep_ne _ "police" _ (by decide),
    getCol_scoreKeyStep_ne _ "health" _ (by decide),
    getCol_densScoreStep_self]

lemma hasCol_g2_dist (gdf : Frame G) (c : String) (h1 : c ≠ "dens_sqkm")
    (h2 : c ≠ "dens_score") :
    (densScoreStep (densStep gdf)).hasCol c = gdf.hasCol c := by
  rw [hasCol_densScoreStep_ne _ _ h2, hasCol_densStep_ne _ _ h1]

lemma getCol_g2_dist (gdf : Frame G) (c : String) (h1 : c ≠ "dens_sqkm")
    (h2 : c ≠ "dens_score") :
    (densScoreStep (densStep gdf)).getCol c = gdf.getCol c := by
  rw [getCol_densScoreStep_ne _ _ h2, getCol_densStep_ne _ _ h1]

lemma getCol_scoreStage_health_present (gdf : Frame G)
    (h : gdf.hasCol "dist_health" = true) :
    (scoreStage gdf).getCol "health_score" =
      (minmaxScale (gdf.getCol "dist_health")).map Cell.oneSubc := by
  have e1 : ("health" : String) ++ "_score" = "health_score" := rfl
  have e2 : ("dist_" : String) ++ "health" = "dist_health" := rfl
  rw [scoreStage, getCol_scoreKeyStep_ne _ "roads" _ (by decide),
    getCol_scoreKeyStep_ne _ "police" _ (by decide), ← e1,
    getCol_scoreKeyStep_present _ "health"
      (by rw [e2, hasCol_g2_dist gdf _ (by decide) (by decide)]; exact h),
    e2, getCol_g2_dist gdf _ (by decide) (by decide)]

lemma getCol_scoreStage_health_absent (gdf : Frame G)
    (h : gdf.hasCol "dist_health" = false) :
    (scoreStage gdf).getCol "health_score" =
      gdf.geoms.map (fun _ => Cell.num 0) := by
  have e1 : ("health" : String) ++ "_score" = "health_score" := rfl
  have e2 : ("dist_" : String) ++ "health" = "dist_health" := rfl
  rw [scoreStage, getCol_scoreKeyStep_ne _ "roads" _ (by decide),
    getCol_scoreKeyStep_ne _ "police" _ (by decide), ← e1,
    getCol_scoreKeyStep_absent _ "health"
      (by rw [e2, hasCol_g2_dist gdf _ (by decide) (by decide)]; exact h),
    geoms_densScoreStep, geoms_densStep]

lemma getCol_scoreStage_police_present (gdf : Frame G)
    (h : gdf.hasCol "dist_police" = true) :
    (scoreStage gdf).getCol "police_score" =
      (minmaxScale (gdf.getCol "dist_police")).map Cell.oneSubc := by
  have e1 : ("police" : String) ++ "_score" = "police_score" := rfl
  have e2 : ("dist_" : String) ++ "police" = "dist_police" := rfl
  rw [scoreStage, getCol_scoreKeyStep_ne _ "roads" _ (by decide), ← e1,
    getCol_scoreKeyStep_present _ "police"
      (by rw [e2, hasCol_scoreKeyStep_ne _ "health" _ (by decide),
        hasCol_g2_dist gdf _ (by decide) (by decide)]; exact h),
    e2, getCol_scoreKeyStep_ne _ "health" _ (by decide),
    getCol_g2_dist gdf _ (by decide) (by decide)]

lemma getCol_scoreStage_police_absent (gdf : Frame G)
    (h : gdf.hasCol "dist_police" = false) :
    (scoreStage gdf).getCol "police_score" =
      gdf.geoms.map (fun _ => Cell.num 0) := by
  have e1 : ("police" : String) ++ "_score" = "police_score" := rfl
  have e2 : ("dist_" : String) ++ "police" = "dist_police" := rfl
  rw [scoreStage, getCol_scoreKeyStep_ne _ "roads" _ (by decide), ← e1,
    getCol_scoreKeyStep_absent _ "police"
      (by rw [e2, hasCol_scoreKeyStep_ne _ "health" _ (by decide),
        hasCol_g2_dist gdf _ (by decide) (by decide)]; exact h),
    geoms_scoreKeyStep, geoms_densScoreStep, geoms_densStep]

lemma getCol_scoreStage_roads_present (gdf : Frame G)
    (h : gdf.hasCol "dist_roads" = true) :
    (scoreStage gdf).getCol "roads_score" =
      (minmaxScale (gdf.getCol "dist_roads")).map Cell.oneSubc := by
  have e1 : ("roads" : String) ++ "_score" = "roads_score" := rfl
  have e2 : ("dist_" : String) ++ "roads" = "dist_roads" := rfl
  rw [scoreStage, ← e1,
    getCol_scoreKeyStep_present _ "roads"
      (by rw [e2, hasCol_scoreKeyStep_ne _ "police" _ (by decide),
        hasCol_scoreKeyStep_ne _ "health" _ (by decide),
        hasCol_g2_dist gdf _ (by decide) (by decide)]; exact h),
    e2, getCol_scoreKeyStep_ne _ "police" _ (by decide),
    getCol_scoreKeyStep_ne _ "health" _ (by decide),
    getCol_g2_dist gdf _ (by decide) (by decide)]

lemma getCol_scoreStage_roads_absent (gdf : Frame G)
    (h : gdf.hasCol "dist_roads" = false) :
    (scoreStage gdf).getCol "roads_score" =
      gdf.geoms.map (fun _ => Cell.num 0) := by
  have e1 : ("roads" : String) ++ "_score" = "roads_score" := rfl
  have e2 : ("dist_" : String) ++ "roads" = "dist_roads" := rfl
  rw [scoreStage, ← e1,
    getCol_scoreKeyStep_absent _ "roads"
      (by rw [e2, hasCol_scoreKeyStep_ne _ "police" _ (by decide),
        hasCol_scoreKeyStep_ne _ "health" _ (by decide),
        hasCol_g2_dist gdf _ (by decide) (by decide)]; exact h),
    geoms_scoreKeyStep, geoms_scoreKeyStep, geoms_densScoreStep, geoms_densStep]

lemma length_getCol_scoreStage_dens_score (gdf : Frame G) (hwf : gdf.WF) :
    ((scoreStage gdf).getCol "dens_score").length = gdf.numRows := by
  rw [getCol_scoreStage_dens_score, length_minmaxScale,
    length_getCol_densStep_dens gdf hwf]

lemma length_getCol_scoreStage_health (gdf : Frame G) (hwf : gdf.WF) :
    ((scoreStage gdf).getCol "health_score").length = gdf.numRows := by
  by_cases h : gdf.hasCol "dist_health"
  · rw [getCol_scoreStage_health_present gdf h, List.length_map, length_minmaxScale]
    exact Frame.length_getCol _ _ hwf h
  · rw [getCol_scoreStage_health_absent gdf (by simpa using h), List.length_map]
    rfl

lemma length_getCol_scoreStage_police (gdf : Frame G) (hwf : gdf.WF) :
    ((scoreStage gdf).getCol "police_score").length = gdf.numRows := by
  by_cases h : gdf.hasCol "dist_police"
  · rw [getCol_scoreStage_police_present gdf h, List.length_map, length_minmaxScale]
    exact Frame.length_getCol _ _ hwf h
  · rw [getCol_scoreStage_police_absent gdf (by simpa using h), List.length_map]
    rfl

lemma length_getCol_scoreStage_roads (gdf : Frame G) (hwf : gdf.WF) :
    ((scoreStage gdf).getCol "roads_score").length = gdf.numRows := by
  by_cases h : gdf.hasCol "dist_roads"
  · rw [getCol_scoreStage_roads_present gdf h, List.length_map, length_minmaxScale]
    exact Frame.length_getCol _ _ hwf h
  · rw [getCol_scoreStage_roads_absent gdf (by simpa using h), List.length_map]
    rfl

lemma length_combineScore (d h p r : List Cell) (n : ℕ) (hd : d.length = n)
    (hh : h.length = n) (hp2 : p.length = n) (hr : r.length = n) :
    (combineScore d h p r).length = n := by
  rw [combineScore]
  simp [List.length_zipWith, List.length_map, hd, hh, hp2, hr]

lemma getCol_scoringCols_score (gdf : Frame G) :
    (scoringCols gdf).getCol "score" =
      combineScore ((scoreStage gdf).getCol "dens_score")
        ((scoreStage gdf).getCol "health_score")
        ((scoreStage gdf).getCol "police_score")
        ((scoreStage gdf).getCol "roads_score") := by
  rw [scoringCols, Frame.getCol_setCol_self]

lemma getCol_scoringCols_ne (gdf : Frame G) (c : String) (h : c ≠ "score") :
    (scoringCols gdf).getCol c = (scoreStage gdf).getCol c := by
  rw [scoringCols]
  exact Frame.getCol_setCol_ne _ _ _ _ h

lemma hasCol_scoringCols_ne (gdf : Frame G) (c : String) (h : c ≠ "score") :
    (scoringCols gdf).hasCol c = (scoreStage gdf).hasCol c := by
  rw [scoringCols]
  exact Frame.hasCol_setCol_ne _ _ _ _ h

lemma length_getCol_scoringCols_score (gdf : Frame G) (hwf : gdf.WF) :
    ((scoringCols gdf).getCol "score").length = gdf.numRows := by
  rw [getCol_scoringCols_score]
  exact length_combineScore _ _ _ _ _ (length_getCol_scoreStage_dens_score gdf hwf)
    (length_getCol_scoreStage_health gdf hwf)
    (length_getCol_scoreStage_police gdf hwf)
    (length_getCol_scoreStage_roads gdf hwf)

lemma WF_scoringCols (gdf : Frame G) (hwf : gdf.WF) : (scoringCols gdf).WF := by
  rw [scoringCols]
  refine Frame.WF_setCol _ _ _ (WF_scoreStage gdf hwf) ?_
  rw [geoms_scoreStage]
  exact length_combineScore _ _ _ _ _ (length_getCol_scoreStage_dens_score gdf hwf)
    (length_getCol_scoreStage_health gdf hwf)
    (length_getCol_scoreStage_police gdf hwf)
    (length_getCol_scoreStage_roads gdf hwf)

lemma scoring_logic_eq {G : Type} [Inhabited G] (gdf : Frame G) :
    scoring_logic gdf =
      reorderRows (scoringCols gdf)
        (sortIndices ((scoringCols gdf).getCol "score")) := rfl

lemma numRows_scoring_logic {G : Type} [Inhabited G] (gdf : Frame G)
    (hwf : gdf.WF) : (scoring_logic gdf).numRows = gdf.numRows := by
  rw [scoring_logic_eq, Frame.numRows_reorderRows, sortIndices_length,
    length_getCol_scoringCols_score gdf hwf]

end StageComposition

section ComputeNearestLemmas

variable {G P I : Type}

lemma geoms_compute_nearest (cen : G → P) (dtp : I → P → ℚ) :
    ∀ (infra : List (String × List I)) (gdf : Frame G),
      (compute_nearest cen dtp gdf infra).geoms = gdf.geoms := by
  intro infra
  induction infra with
  | nil => intro gdf; rfl
  | cons kv infra ih =>
    intro gdf
    simp only [compute_nearest, List.foldl_cons]
    simp only [compute_nearest] at ih
    rw [ih]
    split <;> rw [Frame.geoms_setCol]

lemma getCol_compute_nearest_ne (cen : G → P) (dtp : I → P → ℚ) (c : String) :
    ∀ (infra : List (String × List I)) (gdf : Frame G),
      (∀ kv ∈ infra, c ≠ "dist_" ++ kv.1) →
      (compute_nearest cen dtp gdf infra).getCol c = gdf.getCol c := by
  intro infra
  induction infra with
  | nil => intro gdf _; rfl
  | cons kv infra ih =>
    intro gdf hc
    simp only [compute_nearest, List.foldl_cons]
    simp only [compute_nearest] at ih
    rw [ih _ (fun kv2 h2 => hc kv2 (List.mem_cons_of_mem _ h2))]
    split <;> exact Frame.getCol_setCol_ne _ _ _ _ (hc kv (List.mem_cons_self _ _))

lemma hasCol_compute_nearest (cen : G → P) (dtp : I → P → ℚ) (c : String) :
    ∀ (infra : List (String × List I)) (gdf : Frame G),
      (compute_nearest cen dtp gdf infra).hasCol c =
        (gdf.hasCol c || infra.any (fun kv => c == "dist_" ++ kv.1)) := by
  intro infra
  induction infra with
  | nil => intro gdf; simp [compute_nearest]
  | cons kv infra ih =>
    intro gdf
    simp only [compute_nearest, List.foldl_cons]
    simp only [compute_nearest] at ih
    rw [ih]
    rw [List.any_cons]
    by_cases h : c = "dist_" ++ kv.1
    · have hb : (c == "dist_" ++ kv.1) = true := by simp [h]
      rw [hb]
      have hself : ∀ v : List Cell,
          (gdf.setCol ("dist_" ++ kv.1) v).hasCol c = true := by
        intro v
        rw [h]
        exact Frame.hasCol_setCol_self _ _ _
      split <;> simp [hself]
    · have hb : (c == "dist_" ++ kv.1) = false := by simp [h]
      rw [hb]
      have hne : ∀ v : List Cell,
          (gdf.setCol ("dist_" ++ kv.1) v).hasCol c = gdf.hasCol c :=
        fun v => Frame.hasCol_setCol_ne _ _ _ _ h
      split <;> simp [hne]

lemma WF_compute_nearest (cen : G → P) (dtp : I → P → ℚ) :
    ∀ (infra : List (String × List I)) (gdf : Frame G), gdf.WF →
      (compute_nearest cen dtp gdf infra).WF := by
  intro infra
  induction infra with
  | nil => intro gdf hwf; exact hwf
  | cons kv infra ih =>
    intro gdf hwf
    simp only [compute_nearest, List.foldl_cons]
    simp only [compute_nearest] at ih
    apply ih
    split
    · exact Frame.WF_setCol _ _ _ hwf (by rw [List.length_map])
    · exact Frame.WF_setCol _ _ _ hwf (by rw [List.length_map])

lemma numRows_headN (df : Frame G) (n : ℕ) :
    (df.headN n).numRows = min n df.numRows := by
  rw [Frame.headN, Frame.numRows, Frame.numRows]
  exact List.length_take n df.geoms

end ComputeNearestLemmas

section MoreStageLemmas

variable {G : Type}

lemma hasCol_scoreKeyStep_self (gdf : Frame G) (key : String) :
    (scoreKeyStep gdf key).hasCol (key ++ "_score") = true := by
  rw [scoreKeyStep]
  split <;> exact Frame.hasCol_setCol_self _ _ _

lemma hasCol_scoreStage_dens_score (gdf : Frame G) :
    (scoreStage gdf).hasCol "dens_score" = true := by
  rw [scoreStage, hasCol_scoreKeyStep_ne _ "roads" _ (by decide),
    hasCol_scoreKeyStep_ne _ "police" _ (by decide),
    hasCol_scoreKeyStep_ne _ "health" _ (by decide), densScoreStep]
  exact Frame.hasCol_setCol_self _ _ _

lemma hasCol_scoreStage_health (gdf : Frame G) :
    (scoreStage gdf).hasCol "health_score" = true := by
  rw [scoreStage, hasCol_scoreKeyStep_ne _ "roads" _ (by decide),
    hasCol_scoreKeyStep_ne _ "police" _ (by decide)]
  exact hasCol_scoreKeyStep_self _ "health"

lemma hasCol_scoreStage_police (gdf : Frame G) :
    (scoreStage gdf).hasCol "police_score" = true := by
  rw [scoreStage, hasCol_scoreKeyStep_ne _ "roads" _ (by decide)]
  exact hasCol_scoreKeyStep_self _ "police"

lemma hasCol_scoreStage_roads (gdf : Frame G) :
    (scoreStage gdf).hasCol "roads_score" = true := by
  rw [scoreStage]
  exact hasCol_scoreKeyStep_self _ "roads"

lemma hasCol_scoringCols_score (gdf : Frame G) :
    (scoringCols gdf).hasCol "score" = true := by
  rw [scoringCols]
  exact Frame.hasCol_setCol_self _ _ _

lemma getCol_scoringCols_other (gdf : Frame G) (c : String) (h1 : c ≠ "score")
    (h2 : c ≠ "roads_score") (h3 : c ≠ "police_score") (h4 : c ≠ "health_score")
    (h5 : c ≠ "dens_score") (h6 : c ≠ "dens_sqkm") :
    (scoringCols gdf).getCol c = gdf.getCol c := by
  rw [getCol_scoringCols_ne _ _ h1, scoreStage,
    getCol_scoreKeyStep_ne _ "roads" _ h2, getCol_scoreKeyStep_ne _ "police" _ h3,
    getCol_scoreKeyStep_ne _ "health" _ h4, getCol_densScoreStep_ne _ _ h5,
    getCol_densStep_ne _ _ h6]

lemma hasCol_scoringCols_other (gdf : Frame G) (c : String) (h1 : c ≠ "score")
    (h2 : c ≠ "roads_score") (h3 : c ≠ "police_score") (h4 : c ≠ "health_score")
    (h5 : c ≠ "dens_score") (h6 : c ≠ "dens_sqkm") :
    (scoringCols gdf).hasCol c = gdf.hasCol c := by
  rw [hasCol_scoringCols_ne _ _ h1, scoreStage,
    hasCol_scoreKeyStep_ne _ "roads" _ h2, hasCol_scoreKeyStep_ne _ "police" _ h3,
    hasCol_scoreKeyStep_ne _ "health" _ h4, hasCol_densScoreStep_ne _ _ h5,
    hasCol_densStep_ne _ _ h6]

lemma getD_combineScore (d h p r : List Cell) (n k : ℕ) (hd : d.length = n)
    (hh : h.length = n) (hp2 : p.length = n) (hr : r.length = n) (hk : k < n) :
    (combineScore d h p r).getD k Cell.nan =
      ((((d.getD k Cell.nan).smulc W_DENS).addc
        ((h.getD k Cell.nan).smulc W_HEALTH)).addc
        ((p.getD k Cell.nan).smulc W_POLICE)).addc
        ((r.getD k Cell.nan).smulc W_ROADS) := by
  have ld : k < (d.map (Cell.smulc W_DENS)).length := by
    rw [List.length_map, hd]; exact hk
  have lh : k < (h.map (Cell.smulc W_HEALTH)).length := by
    rw [List.length_map, hh]; exact hk
  have lp : k < (p.map (Cell.smulc W_POLICE)).length := by
    rw [List.length_map, hp2]; exact hk
  have lr : k < (r.map (Cell.smulc W_ROADS)).length := by
    rw [List.length_map, hr]; exact hk
  have l1 : k < (List.zipWith Cell.addc (d.map (Cell.smulc W_DENS))
      (h.map (Cell.smulc W_HEALTH))).length := by
    rw [List.length_zipWith]
    omega
  have l2 : k < (List.zipWith Cell.addc
      (List.zipWith Cell.addc (d.map (Cell.smulc W_DENS))
        (h.map (Cell.smulc W_HEALTH)))
      (p.map (Cell.smulc W_POLICE))).length := by
    rw [List.length_zipWith]
    omega
  rw [combineScore]
  rw [getD_zipWith Cell.addc _ _ k Cell.nan l2 lr]
  rw [getD_zipWith Cell.addc _ _ k Cell.nan l1 lp]
  rw [getD_zipWith Cell.addc _ _ k Cell.nan ld lh]
  rw [getD_map (Cell.smulc W_DENS) d k Cell.nan Cell.nan (by rw [hd]; exact hk)]
  rw [getD_map (Cell.smulc W_HEALTH) h k Cell.nan Cell.nan (by rw [hh]; exact hk)]
  rw [getD_map (Cell.smulc W_POLICE) p k Cell.nan Cell.nan (by rw [hp2]; exact hk)]
  rw [getD_map (Cell.smulc W_ROADS) r k Cell.nan Cell.nan (by rw [hr]; exact hk)]

end MoreStageLemmas

/-- C6: for every candidate layer, the composite score cell of each output
row equals 0.4 times its dens_score plus 0.2 times each of health_score,
police_score and roads_score (exactly, hence within any tolerance), with
the four weights the fixed constants of app.py lines 71-76, summing to 1. -/
theorem c6_composite_weighted_sum {G : Type} [Inhabited G] (gdf : Frame G)
    (hwf : gdf.WF) :
    W_DENS = 0.4 ∧ W_HEALTH = 0.2 ∧ W_POLICE = 0.2 ∧ W_ROADS = 0.2 ∧
    W_DENS + W_HEALTH + W_POLICE + W_ROADS = 1 ∧
    ∀ k < (scoring_logic gdf).numRows,
      ((scoring_logic gdf).getCol "score").getD k Cell.nan =
        ((((((scoring_logic gdf).getCol "dens_score").getD k Cell.nan).smulc
            W_DENS).addc
          ((((scoring_logic gdf).getCol "health_score").getD k Cell.nan).smulc
            W_HEALTH)).addc
          ((((scoring_logic gdf).getCol "police_score").getD k Cell.nan).smulc
            W_POLICE)).addc
          ((((scoring_logic gdf).getCol "roads_score").getD k Cell.nan).smulc
            W_ROADS) := by
  refine ⟨rfl, rfl, rfl, rfl, by rw [W_DENS, W_HEALTH, W_POLICE, W_ROADS]; norm_num, ?_⟩
  intro k hk
  have hlen := length_getCol_scoringCols_score gdf hwf
  have hkp : k < (sortIndices ((scoringCols gdf).getCol "score")).length := by
    rw [scoring_logic_eq, Frame.numRows_reorderRows] at hk
    exact hk
  set p := sortIndices ((scoringCols gdf).getCol "score") with hp
  have hj : p.getD k 0 ∈ p := mem_getD p k 0 hkp
  have hjn : p.getD k 0 < gdf.numRows := by
    have := sortIndices_mem_lt _ _ hj
    rw [hlen] at this
    exact this
  have hds : (scoringCols gdf).getCol "dens_score" =
      (scoreStage gdf).getCol "dens_score" :=
    getCol_scoringCols_ne _ _ (by decide)
  have hhs : (scoringCols gdf).getCol "health_score" =
      (scoreStage gdf).getCol "health_score" :=
    getCol_scoringCols_ne _ _ (by decide)
  have hps : (scoringCols gdf).getCol "police_score" =
      (scoreStage gdf).getCol "police_score" :=
    getCol_scoringCols_ne _ _ (by decide)
  have hrs : (scoringCols gdf).getCol "roads_score" =
      (scoreStage gdf).getCol "roads_score" :=
    getCol_scoringCols_ne _ _ (by decide)
  have e1 : (scoring_logic gdf).getCol "score" =
      reorderCol p ((scoringCols gdf).getCol "score") := by
    rw [scoring_logic_eq]
    exact Frame.getCol_reorderRows _ _ _ (hasCol_scoringCols_score gdf)
  have e2 : (scoring_logic gdf).getCol "dens_score" =
      reorderCol p ((scoringCols gdf).getCol "dens_score") := by
    rw [scoring_logic_eq]
    exact Frame.getCol_reorderRows _ _ _
      (by rw [hasCol_scoringCols_ne _ _ (by decide)]
          exact hasCol_scoreStage_dens_score gdf)
  have e3 : (scoring_logic gdf).getCol "health_score" =
      reorderCol p ((scoringCols gdf).getCol "health_score") := by
    rw [scoring_logic_eq]
    exact Frame.getCol_reorderRows _ _ _
      (by rw [hasCol_scoringCols_ne _ _ (by decide)]
          exact hasCol_scoreStage_health gdf)
  have e4 : (scoring_logic gdf).getCol "police_score" =
      reorderCol p ((scoringCols gdf).getCol "police_score") := by
    rw [scoring_logic_eq]
    exact Frame.getCol_reorderRows _ _ _
      (by rw [hasCol_scoringCols_ne _ _ (by decide)]
          exact hasCol_scoreStage_police gdf)
  have e5 : (scoring_logic gdf).getCol "roads_score" =
      reorderCol p ((scoringCols gdf).getCol "roads_score") := by
    rw [scoring_logic_eq]
    exact Frame.getCol_reorderRows _ _ _
      (by rw [hasCol_scoringCols_ne _ _ (by decide)]
          exact hasCol_scoreStage_roads gdf)
  rw [e1, e2, e3, e4, e5]
  rw [getD_reorderCol p _ k hkp, getD_reorderCol p _ k hkp,
    getD_reorderCol p _ k hkp, getD_reorderCol p _ k hkp,
    getD_reorderCol p _ k hkp]
  rw [getCol_scoringCols_score gdf]
  rw [hds, hhs, hps, hrs]
  exact getD_combineScore _ _ _ _ gdf.numRows (p.getD k 0)
    (length_getCol_scoreStage_dens_score gdf hwf)
    (length_getCol_scoreStage_health gdf hwf)
    (length_getCol_scoreStage_police gdf hwf)
    (length_getCol_scoreStage_roads gdf hwf) hjn

/-- C5: scoring_logic density policy (app.py lines 55-58): when the
dens_sqkm column is absent every candidate is treated as density 1 and
every candidate gets the same dens_score, exactly 0; when the column is
present, numeric cells pass through the coercion unchanged and every
non-numeric (unparseable or NaN) cell becomes 0. -/
theorem c5_density_missing_and_coercion {G : Type} [Inhabited G]
    (gdf : Frame G) (hwf : gdf.WF) :
    (gdf.hasCol "dens_sqkm" = false →
      (∀ c ∈ (densStep gdf).getCol "dens_sqkm", c = Cell.num 1) ∧
      (∀ c ∈ (scoring_logic gdf).getCol "dens_score", c = Cell.num 0)) ∧
    (gdf.hasCol "dens_sqkm" = true →
      ∀ k < gdf.numRows,
        (((gdf.getCol "dens_sqkm").getD k Cell.nan).isNumc = true →
          ((densStep gdf).getCol "dens_sqkm").getD k Cell.nan =
            (gdf.getCol "dens_sqkm").getD k Cell.nan) ∧
        (((gdf.getCol "dens_sqkm").getD k Cell.nan).isNumc = false →
          ((densStep gdf).getCol "dens_sqkm").getD k Cell.nan = Cell.num 0)) := by
  constructor
  · intro hab
    constructor
    · rw [getCol_densStep_dens_absent gdf hab]
      intro c hc
      rw [List.mem_map] at hc
      obtain ⟨a, _, he⟩ := hc
      exact he.symm
    · set p := sortIndices ((scoringCols gdf).getCol "score") with hp
      have e2 : (scoring_logic gdf).getCol "dens_score" =
          reorderCol p ((scoringCols gdf).getCol "dens_score") := by
        rw [scoring_logic_eq]
        exact Frame.getCol_reorderRows _ _ _
          (by rw [hasCol_scoringCols_ne _ _ (by decide)]
              exact hasCol_scoreStage_dens_score gdf)
      rw [e2, getCol_scoringCols_ne _ _ (by decide), getCol_scoreStage_dens_score]
      intro c hc
      have hcol : c ∈ minmaxScale ((densStep gdf).getCol "dens_sqkm") := by
        refine mem_reorderCol p _ c hc ?_
        intro i hi
        have h1 := sortIndices_mem_lt _ _ hi
        rw [length_getCol_scoringCols_score gdf hwf] at h1
        rw [length_minmaxScale, length_getCol_densStep_dens gdf hwf]
        exact h1
      have hxne : (densStep gdf).getCol "dens_sqkm" ≠ [] := by
        intro hnil
        rw [hnil] at hcol
        simp [minmaxScale] at hcol
      have hall : ∀ c2 ∈ (densStep gdf).getCol "dens_sqkm", c2 = Cell.num 1 := by
        rw [getCol_densStep_dens_absent gdf hab]
        intro c2 hc2
        rw [List.mem_map] at hc2
        obtain ⟨a, _, he⟩ := hc2
        exact he.symm
      exact minmaxScale_const _ 1 hxne hall c hcol
  · intro hpres k hk
    have hklen : k < (gdf.getCol "dens_sqkm").length := by
      rw [Frame.length_getCol gdf _ hwf hpres]
      exact hk
    rw [getCol_densStep_dens_present gdf hpres]
    rw [getD_map _ _ k Cell.nan Cell.nan hklen]
    cases hcell : (gdf.getCol "dens_sqkm").getD k Cell.nan with
    | num q => exact ⟨fun _ => rfl, fun hfalse => by simp [Cell.isNumc] at hfalse⟩
    | nan => exact ⟨fun htrue => by simp [Cell.isNumc] at htrue, fun _ => rfl⟩
    | other => exact ⟨fun htrue => by simp [Cell.isNumc] at htrue, fun _ => rfl⟩

/-- C10: frame conditions of the pipeline (app.py lines 44-52 and 54-78):
compute_nearest keeps the geometry column (hence the record count) and
every attribute column other than the written dist columns unchanged, and
a column exists afterwards exactly when it existed before or is one of the
dist columns of the infrastructure map; scoring_logic keeps the record
count, and its output is exactly the scored frame reindexed by a
permutation of row positions, so each record keeps its own geometry and
the output geometries are a permutation of the input geometries.  (The
infrastructure map itself is an input the pure embedding cannot mutate,
which models that compute_nearest leaves the infrastructure layers
unchanged.) -/
theorem c10_frame_conditions {G P I : Type} [Inhabited G] (cen : G → P)
    (dtp : I → P → ℚ) (gdf : Frame G) (infra : List (String × List I))
    (hwf : gdf.WF) :
    ((compute_nearest cen dtp gdf infra).geoms = gdf.geoms) ∧
    ((compute_nearest cen dtp gdf infra).numRows = gdf.numRows) ∧
    (∀ c, (∀ kv ∈ infra, c ≠ "dist_" ++ kv.1) →
      (compute_nearest cen dtp gdf infra).getCol c = gdf.getCol c) ∧
    (∀ c, (compute_nearest cen dtp gdf infra).hasCol c =
      (gdf.hasCol c || infra.any (fun kv => c == "dist_" ++ kv.1))) ∧
    ((scoring_logic gdf).numRows = gdf.numRows) ∧
    (∃ p : List ℕ,
      List.Perm p (List.range gdf.numRows) ∧
      scoring_logic gdf = reorderRows (scoringCols gdf) p ∧
      List.Perm (scoring_logic gdf).geoms gdf.geoms) := by
  refine ⟨geoms_compute_nearest cen dtp infra gdf, ?_, ?_, ?_, ?_, ?_⟩
  · rw [Frame.numRows, Frame.numRows, geoms_compute_nearest cen dtp infra gdf]
  · intro c hc
    exact getCol_compute_nearest_ne cen dtp c infra gdf hc
  · intro c
    exact hasCol_compute_nearest cen dtp c infra gdf
  · exact numRows_scoring_logic gdf hwf
  · refine ⟨sortIndices ((scoringCols gdf).getCol "score"), ?_, rfl, ?_⟩
    · have h := sortIndices_perm ((scoringCols gdf).getCol "score")
      rw [length_getCol_scoringCols_score gdf hwf] at h
      exact h
    · rw [scoring_logic_eq, Frame.geoms_reorderRows, geoms_scoringCols]
      have hperm := sortIndices_perm ((scoringCols gdf).getCol "score")
      rw [length_getCol_scoringCols_score gdf hwf] at hperm
      have h2 := hperm.map (fun i => gdf.geoms.getD i default)
      refine h2.trans ?_
      rw [show gdf.numRows = gdf.geoms.length from rfl, map_getD_range]

lemma map_oneSub_bounds (xs : List Cell)
    (h : ∀ c ∈ xs, ∃ q, c = Cell.num q ∧ 0 ≤ q ∧ q ≤ 1) :
    ∀ c ∈ xs.map Cell.oneSubc, ∃ q, c = Cell.num q ∧ 0 ≤ q ∧ q ≤ 1 := by
  intro c hc
  rw [List.mem_map] at hc
  obtain ⟨a, ha, he⟩ := hc
  obtain ⟨q, haq, h0, h1⟩ := h a ha
  refine ⟨1 - q, ?_, by linarith, by linarith⟩
  rw [← he, haq]
  rfl

/-- C4: for every non-empty candidate layer with finite distance values,
scoring_logic produces dens_score, health_score, police_score, roads_score
and the composite score all within [0,1], the fixed weights summing to 1.
(Density values need no hypothesis: the coercion step makes them finite.) -/
theorem c4_scores_within_unit_interval {G : Type} [Inhabited G]
    (gdf : Frame G) (hwf : gdf.WF) (hne : gdf.geoms ≠ [])
    (hdh : ∀ c ∈ gdf.getCol "dist_health", c.isNumc = true)
    (hdp : ∀ c ∈ gdf.getCol "dist_police", c.isNumc = true)
    (hdr : ∀ c ∈ gdf.getCol "dist_roads", c.isNumc = true) :
    W_DENS + W_HEALTH + W_POLICE + W_ROADS = 1 ∧
    ∀ col ∈ (["dens_score", "health_score", "police_score", "roads_score",
        "score"] : List String),
      ∀ c ∈ (scoring_logic gdf).getCol col,
        ∃ q, c = Cell.num q ∧ 0 ≤ q ∧ q ≤ 1 := by
  have hn0 : 0 < gdf.numRows := by
    rw [Frame.numRows]
    exact List.length_pos.mpr hne
  have Bd : ∀ c ∈ (scoreStage gdf).getCol "dens_score",
      ∃ q, c = Cell.num q ∧ 0 ≤ q ∧ q ≤ 1 := by
    rw [getCol_scoreStage_dens_score]
    apply minmaxScale_bounds
    · apply List.length_pos.mp
      rw [length_getCol_densStep_dens gdf hwf]
      exact hn0
    · exact dens_all_num gdf
  have Bkey : ∀ (key dcol : String),
      ((scoreStage gdf).getCol (key ++ "_score") =
        (minmaxScale (gdf.getCol dcol)).map Cell.oneSubc ∨
       (scoreStage gdf).getCol (key ++ "_score") =
        gdf.geoms.map (fun _ => Cell.num 0)) →
      (∀ c ∈ gdf.getCol dcol, c.isNumc = true) →
      (gdf.hasCol dcol = true → (gdf.getCol dcol).length = gdf.numRows) →
      gdf.hasCol dcol = true ∨ gdf.getCol dcol = [] →
      ∀ c ∈ (scoreStage gdf).getCol (key ++ "_score"),
        ∃ q, c = Cell.num q ∧ 0 ≤ q ∧ q ≤ 1 := by
    intro key dcol hcases hnum hlen hpres c hc
    rcases hcases with he | he
    · rw [he] at hc
      rcases hpres with hp1 | hp1
      · refine map_oneSub_bounds _ (minmaxScale_bounds _ ?_ hnum) c hc
        apply List.length_pos.mp
        rw [hlen hp1]
        exact hn0
      · rw [hp1] at hc
        simp [minmaxScale] at hc
    · rw [he] at hc
      rw [List.mem_map] at hc
      obtain ⟨a, _, hea⟩ := hc
      exact ⟨0, hea.symm, le_refl 0, by norm_num⟩
  have Bh : ∀ c ∈ (scoreStage gdf).getCol "health_score",
      ∃ q, c = Cell.num q ∧ 0 ≤ q ∧ q ≤ 1 := by
    by_cases h : gdf.hasCol "dist_health"
    · exact Bkey "health" "dist_health"
        (Or.inl (getCol_scoreStage_health_present gdf h)) hdh
        (fun h2 => Frame.length_getCol gdf _ hwf h2) (Or.inl h)
    · exact Bkey "health" "dist_health"
        (Or.inr (getCol_scoreStage_health_absent gdf (by simpa using h))) hdh
        (fun h2 => Frame.length_getCol gdf _ hwf h2)
        (Or.inr (Frame.getCol_of_not_hasCol gdf _ (by simpa using h)))
  have Bp : ∀ c ∈ (scoreStage gdf).getCol "police_score",
      ∃ q, c = Cell.num q ∧ 0 ≤ q ∧ q ≤ 1 := by
    by_cases h : gdf.hasCol "dist_police"
    · exact Bkey "police" "dist_police"
        (Or.inl (getCol_scoreStage_police_present gdf h)) hdp
        (fun h2 => Frame.length_getCol gdf _ hwf h2) (Or.inl h)
    · exact Bkey "police" "dist_police"
        (Or.inr (getCol_scoreStage_police_absent gdf (by simpa using h))) hdp
        (fun h2 => Frame.length_getCol gdf _ hwf h2)
        (Or.inr (Frame.getCol_of_not_hasCol gdf _ (by simpa using h)))
  have Br : ∀ c ∈ (scoreStage gdf).getCol "roads_score",
      ∃ q, c = Cell.num q ∧ 0 ≤ q ∧ q ≤ 1 := by
    by_cases h : gdf.hasCol "dist_roads"
    · exact Bkey "roads" "dist_roads"
        (Or.inl (getCol_scoreStage_roads_present gdf h)) hdr
        (fun h2 => Frame.length_getCol gdf _ hwf h2) (Or.inl h)
    · exact Bkey "roads" "dist_roads"
        (Or.inr (getCol_scoreStage_roads_absent gdf (by simpa using h))) hdr
        (fun h2 => Frame.length_getCol gdf _ hwf h2)
        (Or.inr (Frame.getCol_of_not_hasCol gdf _ (by simpa using h)))
  have Bs : ∀ c ∈ (scoringCols gdf).getCol "score",
      ∃ q, c = Cell.num q ∧ 0 ≤ q ∧ q ≤ 1 := by
    intro c hc
    obtain ⟨i, hilen, hie⟩ := List.getElem_of_mem hc
    have hgetD : ((scoringCols gdf).getCol "score").getD i Cell.nan = c := by
      rw [List.getD_eq_getElem?_getD, List.getElem?_eq_getElem hilen]
      simpa using hie
    have hin : i < gdf.numRows := by
      rw [← length_getCol_scoringCols_score gdf hwf]
      exact hilen
    rw [getCol_scoringCols_score] at hgetD
    rw [getD_combineScore _ _ _ _ gdf.numRows i
      (length_getCol_scoreStage_dens_score gdf hwf)
      (length_getCol_scoreStage_health gdf hwf)
      (length_getCol_scoreStage_police gdf hwf)
      (length_getCol_scoreStage_roads gdf hwf) hin] at hgetD
    obtain ⟨q1, he1, h01, h11⟩ := Bd _ (mem_getD _ i Cell.nan
      (by rw [length_getCol_scoreStage_dens_score gdf hwf]; exact hin))
    obtain ⟨q2, he2, h02, h12⟩ := Bh _ (mem_getD _ i Cell.nan
      (by rw [length_getCol_scoreStage_health gdf hwf]; exact hin))
    obtain ⟨q3, he3, h03, h13⟩ := Bp _ (mem_getD _ i Cell.nan
      (by rw [length_getCol_scoreStage_police gdf hwf]; exact hin))
    obtain ⟨q4, he4, h04, h14⟩ := Br _ (mem_getD _ i Cell.nan
      (by rw [length_getCol_scoreStage_roads gdf hwf]; exact hin))
    rw [he1, he2, he3, he4] at hgetD
    simp only [Cell.smulc, Cell.addc] at hgetD
    refine ⟨W_DENS * q1 + W_HEALTH * q2 + W_POLICE * q3 + W_ROADS * q4,
      hgetD.symm, ?_, ?_⟩
    · rw [W_DENS, W_HEALTH, W_POLICE, W_ROADS]
      norm_num
      linarith
    · rw [W_DENS, W_HEALTH, W_POLICE, W_ROADS]
      norm_num
      linarith
  have transfer : ∀ cname : String, (scoringCols gdf).hasCol cname = true →
      ((scoringCols gdf).getCol cname).length = gdf.numRows →
      (∀ c2 ∈ (scoringCols gdf).getCol cname,
        ∃ q, c2 = Cell.num q ∧ 0 ≤ q ∧ q ≤ 1) →
      ∀ c2 ∈ (scoring_logic gdf).getCol cname,
        ∃ q, c2 = Cell.num q ∧ 0 ≤ q ∧ q ≤ 1 := by
    intro cname hhas hlen hpre c2 hc2
    rw [scoring_logic_eq, Frame.getCol_reorderRows _ _ _ hhas] at hc2
    refine hpre c2 (mem_reorderCol _ _ _ hc2 ?_)
    intro i hi
    rw [hlen]
    have h3 := sortIndices_mem_lt _ _ hi
    rwa [length_getCol_scoringCols_score gdf hwf] at h3
  refine ⟨by rw [W_DENS, W_HEALTH, W_POLICE, W_ROADS]; norm_num, ?_⟩
  intro col hcol
  fin_cases hcol
  · refine transfer "dens_score" ?_ ?_ ?_
    · rw [hasCol_scoringCols_ne _ _ (by decide)]
      exact hasCol_scoreStage_dens_score gdf
    · rw [getCol_scoringCols_ne _ _ (by decide)]
      exact length_getCol_scoreStage_dens_score gdf hwf
    · rw [getCol_scoringCols_ne _ _ (by decide)]
      exact Bd
  · refine transfer "health_score" ?_ ?_ ?_
    · rw [hasCol_scoringCols_ne _ _ (by decide)]
      exact hasCol_scoreStage_health gdf
    · rw [getCol_scoringCols_ne _ _ (by decide)]
      exact length_getCol_scoreStage_health gdf hwf
    · rw [getCol_scoringCols_ne _ _ (by decide)]
      exact Bh
  · refine transfer "police_score" ?_ ?_ ?_
    · rw [hasCol_scoringCols_ne _ _ (by decide)]
      exact hasCol_scoreStage_police gdf
    · rw [getCol_scoringCols_ne _ _ (by decide)]
      exact length_getCol_scoreStage_police gdf hwf
    · rw [getCol_scoringCols_ne _ _ (by decide)]
      exact Bp
  · refine transfer "roads_score" ?_ ?_ ?_
    · rw [hasCol_scoringCols_ne _ _ (by decide)]
      exact hasCol_scoreStage_roads gdf
    · rw [getCol_scoringCols_ne _ _ (by decide)]
      exact length_getCol_scoreStage_roads gdf hwf
    · rw [getCol_scoringCols_ne _ _ (by decide)]
      exact Br
  · exact transfer "score" (hasCol_scoringCols_score gdf)
      (length_getCol_scoringCols_score gdf hwf) Bs

/-- C3 (amended): with a present all-finite non-degenerate dist_health
column, the output row holding the minimum distance has health_score
exactly 1, and the output row holding the maximum distance has
health_score exactly EPS / (dist_max - dist_min + EPS) — a positive value
approximately 0, but not 0, because of the epsilon in the denominator of
app.py line 67. -/
theorem c3_minmax_law_amended {G : Type} [Inhabited G] (gdf : Frame G)
    (hwf : gdf.WF) (hcol : gdf.hasCol "dist_health" = true) (m M : ℚ)
    (hm : colMin (gdf.getCol "dist_health") = Cell.num m)
    (hM : colMax (gdf.getCol "dist_health") = Cell.num M) (hnd : m < M) :
    ∀ k < (scoring_logic gdf).numRows,
      (((scoring_logic gdf).getCol "dist_health").getD k Cell.nan = Cell.num m →
        ((scoring_logic gdf).getCol "health_score").getD k Cell.nan =
          Cell.num 1) ∧
      (((scoring_logic gdf).getCol "dist_health").getD k Cell.nan = Cell.num M →
        ((scoring_logic gdf).getCol "health_score").getD k Cell.nan =
          Cell.num (EPS / (M - m + EPS))) := by
  intro k hk
  have hD : (0 : ℚ) < M - m + EPS := by
    have := EPS_pos
    linarith
  set p := sortIndices ((scoringCols gdf).getCol "score") with hp
  have hkp : k < p.length := by
    rw [scoring_logic_eq, Frame.numRows_reorderRows] at hk
    exact hk
  have hjn : p.getD k 0 < gdf.numRows := by
    have h3 := sortIndices_mem_lt _ _ (mem_getD p k 0 hkp)
    rwa [length_getCol_scoringCols_score gdf hwf] at h3
  have hjd : p.getD k 0 < (gdf.getCol "dist_health").length := by
    rw [Frame.length_getCol gdf _ hwf hcol]
    exact hjn
  have edist : (scoring_logic gdf).getCol "dist_health" =
      reorderCol p (gdf.getCol "dist_health") := by
    rw [scoring_logic_eq, Frame.getCol_reorderRows _ _ _
      (by rw [hasCol_scoringCols_other gdf "dist_health" (by decide) (by decide)
            (by decide) (by decide) (by decide) (by decide)]
          exact hcol)]
    rw [← hp]
    rw [getCol_scoringCols_other gdf "dist_health" (by decide) (by decide)
      (by decide) (by decide) (by decide) (by decide)]
  have ehs : (scoring_logic gdf).getCol "health_score" =
      reorderCol p ((minmaxScale (gdf.getCol "dist_health")).map Cell.oneSubc) := by
    rw [scoring_logic_eq, Frame.getCol_reorderRows _ _ _
      (by rw [hasCol_scoringCols_ne gdf "health_score" (by decide)]
          exact hasCol_scoreStage_health gdf)]
    rw [← hp]
    rw [getCol_scoringCols_ne gdf "health_score" (by decide),
      getCol_scoreStage_health_present gdf hcol]
  have hgd : ((scoring_logic gdf).getCol "dist_health").getD k Cell.nan =
      (gdf.getCol "dist_health").getD (p.getD k 0) Cell.nan := by
    rw [edist, getD_reorderCol p _ k hkp]
  have hgh : ((scoring_logic gdf).getCol "health_score").getD k Cell.nan =
      Cell.oneSubc ((((gdf.getCol "dist_health").getD (p.getD k 0) Cell.nan).subc
        (Cell.num m)).divc (Cell.num (M - m + EPS))) := by
    rw [ehs, getD_reorderCol p _ k hkp,
      getD_map Cell.oneSubc _ _ Cell.nan Cell.nan
        (by rw [length_minmaxScale]; exact hjd),
      minmaxScale_getD _ _ hjd, hm, hM]
    simp only [Cell.subc, Cell.addc]
  constructor
  · intro hmin
    rw [hgd] at hmin
    rw [hgh, hmin]
    simp only [Cell.subc, Cell.divc]
    rw [if_neg (ne_of_gt hD)]
    rw [Cell.oneSubc]
    norm_num
  · intro hmax
    rw [hgd] at hmax
    rw [hgh, hmax]
    simp only [Cell.subc, Cell.divc]
    rw [if_neg (ne_of_gt hD)]
    rw [Cell.oneSubc]
    have hD2 : M - m + EPS ≠ 0 := ne_of_gt hD
    have harith : 1 - (M - m) / (M - m + EPS) = EPS / (M - m + EPS) := by
      field_simp
    rw [harith]

/-- C7: for every uploaded layer, the geometry normalizer applies exactly
this branch structure (app.py lines 121-129): a layer with no defined CRS
is assigned EPSG:4326; a layer with a defined CRS other than 4326 is first
reprojected to 4326; a layer already in 4326 is left alone; in every case
the layer is then reprojected to the fixed metric EPSG:32733, so the
result always carries CRS 32733. -/
theorem c7_crs_normalization_branches {G : Type} (reproj : ℕ → ℕ → G → G)
    (gdf : RawLayer G) :
    (gdf.crs = none →
      normalizeUploadCrs reproj gdf = (gdf.set_crs 4326).to_crs reproj 32733) ∧
    (∀ e, gdf.crs = some e → e ≠ 4326 →
      normalizeUploadCrs reproj gdf = (gdf.to_crs reproj 4326).to_crs reproj 32733) ∧
    (gdf.crs = some 4326 →
      normalizeUploadCrs reproj gdf = gdf.to_crs reproj 32733) ∧
    (normalizeUploadCrs reproj gdf).crs = some 32733 := by
  refine ⟨?_, ?_, ?_, ?_⟩
  · intro h
    simp only [normalizeUploadCrs]
    rw [if_pos h]
  · intro e he hne
    simp only [normalizeUploadCrs]
    rw [if_neg (by rw [he]; simp), if_pos (by rw [he]; simp [hne])]
  · intro h
    simp only [normalizeUploadCrs]
    rw [if_neg (by rw [h]; simp), if_neg (by rw [h]; simp)]
  · simp only [normalizeUploadCrs]
    split <;> rfl

/-- C8: the upload route returns a structured response in every case and
never lets an exception escape: the four validation failures each produce
their own distinct error message, and any exception thrown by the
extraction or processing steps is caught and surfaced as an error payload
carrying the exception text (app.py lines 86-148). -/
theorem c8_upload_error_taxonomy (req : UploadReq) :
    (req.hasFilePart = false →
      upload_route req = .errResp "No file part in the request") ∧
    (req.hasFilePart = true → req.filename = "" →
      upload_route req = .errResp "No selected file") ∧
    (req.hasFilePart = true → req.filename ≠ "" →
      allowed_file req.filename = false →
      upload_route req = .errResp "Only .zip shapefiles are supported") ∧
    (req.hasFilePart = true → req.filename ≠ "" →
      allowed_file req.filename = true →
      ∀ e, req.extractListing = .error e → upload_route req = .errResp e) ∧
    (req.hasFilePart = true → req.filename ≠ "" →
      allowed_file req.filename = true →
      ∀ files, req.extractListing = .ok files → findShpFile files = none →
      upload_route req = .errResp "No .shp file found in ZIP") ∧
    (req.hasFilePart = true → req.filename ≠ "" →
      allowed_file req.filename = true →
      ∀ files shp, req.extractListing = .ok files → findShpFile files = some shp →
      ∀ e, req.processShp shp = .error e → upload_route req = .errResp e) ∧
    (req.hasFilePart = true → req.filename ≠ "" →
      allowed_file req.filename = true →
      ∀ files shp, req.extractListing = .ok files → findShpFile files = some shp →
      req.processShp shp = .ok () →
      upload_route req = .okResp "uploads/top5.geojson") ∧
    (("No file part in the request" : String) ≠ "No selected file" ∧
      ("No file part in the request" : String) ≠ "Only .zip shapefiles are supported" ∧
      ("No file part in the request" : String) ≠ "No .shp file found in ZIP" ∧
      ("No selected file" : String) ≠ "Only .zip shapefiles are supported" ∧
      ("No selected file" : String) ≠ "No .shp file found in ZIP" ∧
      ("Only .zip shapefiles are supported" : String) ≠ "No .shp file found in ZIP") := by
  refine ⟨?_, ?_, ?_, ?_, ?_, ?_, ?_, by decide⟩
  · intro h1
    simp [upload_route, uploadBody, h1]
  · intro h1 h2
    simp [upload_route, uploadBody, h1, h2]
  · intro h1 h2 h3
    simp [upload_route, uploadBody, h1, h2, h3]
  · intro h1 h2 h3 e he
    simp [upload_route, uploadBody, h1, h2, h3, he]
  · intro h1 h2 h3 files hf hshp
    simp [upload_route, uploadBody, h1, h2, h3, hf, hshp]
  · intro h1 h2 h3 files shp hf hshp e he
    simp [upload_route, uploadBody, h1, h2, h3, hf, hshp, he]
  · intro h1 h2 h3 files shp hf hshp hok
    simp [upload_route, uploadBody, h1, h2, h3, hf, hshp, hok]

/-- C9: the top-5 extraction head(5) on the scored layer never fails and
returns exactly min 5 N rows; in particular all N rows when N < 5
(app.py lines 137-139). -/
theorem c9_head_min_five {G : Type} [Inhabited G] (gdf : Frame G)
    (hwf : gdf.WF) :
    ((scoring_logic gdf).headN 5).numRows = min 5 gdf.numRows ∧
    (gdf.numRows < 5 →
      ((scoring_logic gdf).headN 5).numRows = gdf.numRows) := by
  have h1 : ((scoring_logic gdf).headN 5).numRows = min 5 gdf.numRows := by
    rw [numRows_headN, numRows_scoring_logic gdf hwf]
  exact ⟨h1, fun h => by rw [h1]; omega⟩

section ConcreteRuns

/-- Stand-in planar distance for concrete runs: every infrastructure
geometry is 3 units from every point. -/
def unitDist : Unit → Unit → ℚ := fun _ _ => 3

/-- One candidate with no attribute columns. -/
def cnFrame : Frame Unit := { geoms := [()], cols := [] }

/-- Infrastructure map with an empty health layer and singleton police
and roads layers, in the insertion order of app.py lines 19-23. -/
def cnInfra : List (String × List Unit) :=
  [("health", []), ("police", [()]), ("roads", [()])]

/-- The frame after compute_nearest on the empty-health input. -/
def cnF0 : Frame Unit :=
  { geoms := [()],
    cols := [("dist_health", [Cell.nan]), ("dist_police", [Cell.num 3]),
      ("dist_roads", [Cell.num 3])] }

set_option maxHeartbeats 1000000 in
lemma cn_e0 : compute_nearest id unitDist cnFrame cnInfra = cnF0 := by
  norm_num +decide [compute_nearest, minLayerDist, unitDist, Frame.hasCol,
    Frame.setCol, Frame.getCol, cnFrame, cnInfra, cnF0]

def cnF1 : Frame Unit :=
  { geoms := [()],
    cols := [("dist_health", [Cell.nan]), ("dist_police", [Cell.num 3]),
      ("dist_roads", [Cell.num 3]), ("dens_sqkm", [Cell.num 1])] }

set_option maxHeartbeats 1000000 in
lemma cn_e1 : densStep cnF0 = cnF1 := by
  norm_num +decide [densStep, Frame.hasCol, Frame.setCol, Frame.getCol,
    toNumericCoerce, fillna0, cnF0, cnF1]

def cnF2 : Frame Unit :=
  { geoms := [()],
    cols := [("dist_health", [Cell.nan]), ("dist_police", [Cell.num 3]),
      ("dist_roads", [Cell.num 3]), ("dens_sqkm", [Cell.num 1]),
      ("dens_score", [Cell.num 0])] }

set_option maxHeartbeats 1000000 in
lemma cn_e2 : densScoreStep cnF1 = cnF2 := by
  norm_num +decide [densScoreStep, Frame.hasCol, Frame.setCol, Frame.getCol,
    minmaxScale, colMin, colMax, numsOf, List.filterMap_cons, List.filterMap_nil,
    Cell.qnum, EPS, Cell.subc, Cell.divc, Cell.addc, min_def, max_def, cnF1, cnF2]

def cnF3 : Frame Unit :=
  { geoms := [()],
    cols := [("dist_health", [Cell.nan]), ("dist_police", [Cell.num 3]),
      ("dist_roads", [Cell.num 3]), ("dens_sqkm", [Cell.num 1]),
      ("dens_score", [Cell.num 0]), ("health_score", [Cell.nan])] }

set_option maxHeartbeats 1000000 in
lemma cn_e3 : scoreKeyStep cnF2 "health" = cnF3 := by
  norm_num +decide [scoreKeyStep, Frame.hasCol, Frame.setCol, Frame.getCol,
    minmaxScale, colMin, colMax, numsOf, List.filterMap_cons, List.filterMap_nil,
    Cell.qnum, EPS, Cell.subc, Cell.divc, Cell.addc, Cell.oneSubc, min_def,
    max_def, cnF2, cnF3]

def cnF4 : Frame Unit :=
  { geoms := [()],
    cols := [("dist_health", [Cell.nan]), ("dist_police", [Cell.num 3]),
      ("dist_roads", [Cell.num 3]), ("dens_sqkm", [Cell.num 1]),
      ("dens_score", [Cell.num 0]), ("health_score", [Cell.nan]),
      ("police_score", [Cell.num 1])] }

set_option maxHeartbeats 1000000 in
lemma cn_e4 : scoreKeyStep cnF3 "police" = cnF4 := by
  norm_num +decide [scoreKeyStep, Frame.hasCol, Frame.setCol, Frame.getCol,
    minmaxScale, colMin, colMax, numsOf, List.filterMap_cons, List.filterMap_nil,
    Cell.qnum, EPS, Cell.subc, Cell.divc, Cell.addc, Cell.oneSubc, min_def,
    max_def, cnF3, cnF4]

def cnF5 : Frame Unit :=
  { geoms := [()],
    cols := [("dist_health", [Cell.nan]), ("dist_police", [Cell.num 3]),
      ("dist_roads", [Cell.num 3]), ("dens_sqkm", [Cell.num 1]),
      ("dens_score", [Cell.num 0]), ("health_score", [Cell.nan]),
      ("police_score", [Cell.num 1]), ("roads_score", [Cell.num 1])] }

set_option maxHeartbeats 1000000 in
lemma cn_e5 : scoreKeyStep cnF4 "roads" = cnF5 := by
  norm_num +decide [scoreKeyStep, Frame.hasCol, Frame.setCol, Frame.getCol,
    minmaxScale, colMin, colMax, numsOf, List.filterMap_cons, List.filterMap_nil,
    Cell.qnum, EPS, Cell.subc, Cell.divc, Cell.addc, Cell.oneSubc, min_def,
    max_def, cnF4, cnF5]

def cnF6 : Frame Unit :=
  { geoms := [()],
    cols := [("dist_health", [Cell.nan]), ("dist_police", [Cell.num 3]),
      ("dist_roads", [Cell.num 3]), ("dens_sqkm", [Cell.num 1]),
      ("dens_score", [Cell.num 0]), ("health_score", [Cell.nan]),
      ("police_score", [Cell.num 1]), ("roads_score", [Cell.num 1]),
      ("score", [Cell.nan])] }

set_option maxHeartbeats 1000000 in
lemma cn_e6 : scoringCols cnF0 = cnF6 := by
  rw [scoringCols, scoreStage, cn_e1, cn_e2, cn_e3, cn_e4, cn_e5]
  norm_num +decide [combineScore, Cell.smulc, Cell.addc, W_DENS, W_HEALTH,
    W_POLICE, W_ROADS, Frame.hasCol, Frame.setCol, Frame.getCol, cnF5, cnF6]

set_option maxHeartbeats 1000000 in
lemma cn_e7 : scoring_logic cnF0 = cnF6 := by
  simp only [scoring_logic]
  rw [cn_e6]
  norm_num +decide [sortValuesScoreDesc, sortIndices, reorderRows, reorderCol,
    rdesc, Cell.isNanc, Cell.qval, Frame.getCol, cnF6]

end ConcreteRuns

/-- C1 (code evaluated at the failing input): with an empty health layer,
compute_nearest does set dist_health to the NaN marker for the candidate,
but after scoring_logic the health_score (and the composite score) of the
candidate is NaN, not 0: in app.py the dist_health column exists (full of
NaN), so line 67 computes 1 - (NaN - NaN)/(NaN - NaN + 1e-9) = NaN, and
the key_score = 0 branch of line 69 is unreachable for compute_nearest
output.  This contradicts the spec policy that an empty infrastructure
layer yields key_score 0, not null/NaN. -/
theorem c1_empty_infra_scores_nan :
    (compute_nearest id unitDist cnFrame cnInfra).getCol "dist_health" =
      [Cell.nan] ∧
    (scoring_logic (compute_nearest id unitDist cnFrame cnInfra)).getCol
      "health_score" = [Cell.nan] ∧
    (scoring_logic (compute_nearest id unitDist cnFrame cnInfra)).getCol
      "score" = [Cell.nan] ∧
    Cell.nan ≠ Cell.num 0 := by
  rw [cn_e0, cn_e7]
  refine ⟨by decide, by decide, by decide, by decide⟩

section ConcreteRunF3

/-- Two candidates whose dist_health column is the non-degenerate pair
0 and 1 (no other attributes). -/
def cf3 : Frame Unit :=
  { geoms := [(), ()], cols := [("dist_health", [Cell.num 0, Cell.num 1])] }

def cf3A1 : Frame Unit :=
  { geoms := [(), ()],
    cols := [("dist_health", [Cell.num 0, Cell.num 1]),
      ("dens_sqkm", [Cell.num 1, Cell.num 1])] }

set_option maxHeartbeats 1000000 in
lemma cf3_e1 : densStep cf3 = cf3A1 := by
  norm_num +decide [densStep, Frame.hasCol, Frame.setCol, Frame.getCol,
    toNumericCoerce, fillna0, cf3, cf3A1]

def cf3A2 : Frame Unit :=
  { geoms := [(), ()],
    cols := [("dist_health", [Cell.num 0, Cell.num 1]),
      ("dens_sqkm", [Cell.num 1, Cell.num 1]),
      ("dens_score", [Cell.num 0, Cell.num 0])] }

set_option maxHeartbeats 1000000 in
lemma cf3_e2 : densScoreStep cf3A1 = cf3A2 := by
  norm_num +decide [densScoreStep, Frame.hasCol, Frame.setCol, Frame.getCol,
    minmaxScale, colMin, colMax, numsOf, List.filterMap_cons, List.filterMap_nil,
    Cell.qnum, EPS, Cell.subc, Cell.divc, Cell.addc, min_def, max_def, cf3A1,
    cf3A2]

def cf3A3 : Frame Unit :=
  { geoms := [(), ()],
    cols := [("dist_health", [Cell.num 0, Cell.num 1]),
      ("dens_sqkm", [Cell.num 1, Cell.num 1]),
      ("dens_score", [Cell.num 0, Cell.num 0]),
      ("health_score", [Cell.num 1, Cell.num (1 / 1000000001)])] }

set_option maxHeartbeats 1000000 in
lemma cf3_e3 : scoreKeyStep cf3A2 "health" = cf3A3 := by
  norm_num +decide [scoreKeyStep, Frame.hasCol, Frame.setCol, Frame.getCol,
    minmaxScale, colMin, colMax, numsOf, List.filterMap_cons, List.filterMap_nil,
    Cell.qnum, EPS, Cell.subc, Cell.divc, Cell.addc, Cell.oneSubc, min_def,
    max_def, cf3A2, cf3A3]

def cf3A4 : Frame Unit :=
  { geoms := [(), ()],
    cols := [("dist_health", [Cell.num 0, Cell.num 1]),
      ("dens_sqkm", [Cell.num 1, Cell.num 1]),
      ("dens_score", [Cell.num 0, Cell.num 0]),
      ("health_score", [Cell.num 1, Cell.num (1 / 1000000001)]),
      ("police_score", [Cell.num 0, Cell.num 0])] }

set_option maxHeartbeats 1000000 in
lemma cf3_e4 : scoreKeyStep cf3A3 "police" = cf3A4 := by
  norm_num +decide [scoreKeyStep, Frame.hasCol, Frame.setCol, Frame.getCol,
    minmaxScale, colMin, colMax, numsOf, List.filterMap_cons, List.filterMap_nil,
    Cell.qnum, EPS, Cell.subc, Cell.divc, Cell.addc, Cell.oneSubc, min_def,
    max_def, cf3A3, cf3A4]

def cf3A5 : Frame Unit :=
  { geoms := [(), ()],
    cols := [("dist_health", [Cell.num 0, Cell.num 1]),
      ("dens_sqkm", [Cell.num 1, Cell.num 1]),
      ("dens_score", [Cell.num 0, Cell.num 0]),
      ("health_score", [Cell.num 1, Cell.num (1 / 1000000001)]),
      ("police_score", [Cell.num 0, Cell.num 0]),
      ("roads_score", [Cell.num 0, Cell.num 0])] }

set_option maxHeartbeats 1000000 in
lemma cf3_e5 : scoreKeyStep cf3A4 "roads" = cf3A5 := by
  norm_num +decide [scoreKeyStep, Frame.hasCol, Frame.setCol, Frame.getCol,
    minmaxScale, colMin, colMax, numsOf, List.filterMap_cons, List.filterMap_nil,
    Cell.qnum, EPS, Cell.subc, Cell.divc, Cell.addc, Cell.oneSubc, min_def,
    max_def, cf3A4, cf3A5]

def cf3A6 : Frame Unit :=
  { geoms := [(), ()],
    cols := [("dist_health", [Cell.num 0, Cell.num 1]),
      ("dens_sqkm", [Cell.num 1, Cell.num 1]),
      ("dens_score", [Cell.num 0, Cell.num 0]),
      ("health_score", [Cell.num 1, Cell.num (1 / 1000000001)]),
      ("police_score", [Cell.num 0, Cell.num 0]),
      ("roads_score", [Cell.num 0, Cell.num 0]),
      ("score", [Cell.num (1 / 5), Cell.num (1 / 5000000005)])] }

set_option maxHeartbeats 1000000 in
lemma cf3_e6 : scoringCols cf3 = cf3A6 := by
  rw [scoringCols, scoreStage, cf3_e1, cf3_e2, cf3_e3, cf3_e4, cf3_e5]
  norm_num +decide [combineScore, Cell.smulc, Cell.addc, W_DENS, W_HEALTH,
    W_POLICE, W_ROADS, Frame.hasCol, Frame.setCol, Frame.getCol, cf3A5, cf3A6]

set_option maxHeartbeats 1000000 in
lemma cf3_e7 : scoring_logic cf3 = cf3A6 := by
  simp only [scoring_logic]
  rw [cf3_e6]
  norm_num +decide [sortValuesScoreDesc, sortIndices, reorderRows, reorderCol,
    rdesc, Cell.isNanc, Cell.qval, Frame.getCol, List.insertionSort,
    List.orderedInsert, cf3A6]

end ConcreteRunF3

/-- C3 counterexample: on the two-candidate layer with dist_health values
0 and 1, the output row carrying the maximum distance 1 has health_score
1/1000000001 — approximately but not exactly 0 — because of the 1e-9
epsilon in the denominator of app.py line 67.  (The minimum row does get
exactly 1.) -/
theorem c3_max_dist_health_score_not_zero :
    (scoring_logic cf3).getCol "dist_health" = [Cell.num 0, Cell.num 1] ∧
    (scoring_logic cf3).getCol "health_score" =
      [Cell.num 1, Cell.num (1 / 1000000001)] ∧
    Cell.num ((1 : ℚ) / 1000000001) ≠ Cell.num 0 := by
  rw [cf3_e7]
  refine ⟨rfl, rfl, ?_⟩
  intro h
  rw [Cell.num.injEq] at h
  norm_num at h

section WitnessFixtures

instance {G : Type} (df : Frame G) : Decidable df.WF :=
  decidable_of_iff (∀ p ∈ df.cols, p.2.length = df.geoms.length) Iff.rfl

/-- One candidate whose dens_sqkm value is unparseable. -/
def cfD : Frame Unit :=
  { geoms := [()], cols := [("dens_sqkm", [Cell.other])] }

/-- Stand-in reprojection for concrete runs: leaves geometries alone. -/
def rpId : ℕ → ℕ → Unit → Unit := fun _ _ g => g

def rl1 : RawLayer Unit := { crs := none, geoms := [()] }

def rl2 : RawLayer Unit := { crs := some 32733, geoms := [()] }

def rl3 : RawLayer Unit := { crs := some 4326, geoms := [()] }

def rq1 : UploadReq :=
  { hasFilePart := false, filename := "a.zip", extractListing := .ok [],
    processShp := fun _ => .ok () }

def rq2 : UploadReq :=
  { hasFilePart := true, filename := "", extractListing := .ok [],
    processShp := fun _ => .ok () }

def rq3 : UploadReq :=
  { hasFilePart := true, filename := "a.txt", extractListing := .ok [],
    processShp := fun _ => .ok () }

def rq4 : UploadReq :=
  { hasFilePart := true, filename := "a.zip",
    extractListing := .error "cannot save file", processShp := fun _ => .ok () }

def rq5 : UploadReq :=
  { hasFilePart := true, filename := "a.zip",
    extractListing := .ok ["readme.txt"], processShp := fun _ => .ok () }

def rq6 : UploadReq :=
  { hasFilePart := true, filename := "a.zip", extractListing := .ok ["x.shp"],
    processShp := fun _ => .error "unable to read shapefile" }

def rq7 : UploadReq :=
  { hasFilePart := true, filename := "a.zip", extractListing := .ok ["x.shp"],
    processShp := fun _ => .ok () }

end WitnessFixtures

/-- Witness for the amended C3 at cf3, where dist_health has minimum 0 and
maximum 1. -/
theorem c3_amended_witness :
    cf3.WF ∧ cf3.hasCol "dist_health" = true ∧
    colMin (cf3.getCol "dist_health") = Cell.num 0 ∧
    colMax (cf3.getCol "dist_health") = Cell.num 1 ∧ (0 : ℚ) < 1 ∧
    ∀ k < (scoring_logic cf3).numRows,
      (((scoring_logic cf3).getCol "dist_health").getD k Cell.nan = Cell.num 0 →
        ((scoring_logic cf3).getCol "health_score").getD k Cell.nan =
          Cell.num 1) ∧
      (((scoring_logic cf3).getCol "dist_health").getD k Cell.nan = Cell.num 1 →
        ((scoring_logic cf3).getCol "health_score").getD k Cell.nan =
          Cell.num (EPS / (1 - 0 + EPS))) := by
  have hm : colMin (cf3.getCol "dist_health") = Cell.num 0 := by
    norm_num +decide [colMin, numsOf, List.filterMap_cons, List.filterMap_nil,
      Cell.qnum, Frame.getCol, cf3, min_def]
  have hM : colMax (cf3.getCol "dist_health") = Cell.num 1 := by
    norm_num +decide [colMax, numsOf, List.filterMap_cons, List.filterMap_nil,
      Cell.qnum, Frame.getCol, cf3, max_def]
  exact ⟨by decide, by decide, hm, hM, by norm_num,
    c3_minmax_law_amended cf3 (by decide) (by decide) 0 1 hm hM (by norm_num)⟩

/-- Witness for C4 at cf3: finite dist_health values, absent police and
roads distance columns. -/
theorem c4_witness :
    cf3.WF ∧ cf3.geoms ≠ [] ∧
    (∀ c ∈ cf3.getCol "dist_health", c.isNumc = true) ∧
    (∀ c ∈ cf3.getCol "dist_police", c.isNumc = true) ∧
    (∀ c ∈ cf3.getCol "dist_roads", c.isNumc = true) ∧
    (W_DENS + W_HEALTH + W_POLICE + W_ROADS = 1 ∧
      ∀ col ∈ (["dens_score", "health_score", "police_score", "roads_score",
          "score"] : List String),
        ∀ c ∈ (scoring_logic cf3).getCol col,
          ∃ q, c = Cell.num q ∧ 0 ≤ q ∧ q ≤ 1) :=
  ⟨by decide, by decide, by decide, by decide, by decide,
    c4_scores_within_unit_interval cf3 (by decide) (by decide) (by decide)
      (by decide) (by decide)⟩

/-- Witness for C5: cf3 has no dens_sqkm column, cfD has one holding an
unparseable value. -/
theorem c5_witness :
    (cf3.hasCol "dens_sqkm" = false ∧
      (∀ c ∈ (densStep cf3).getCol "dens_sqkm", c = Cell.num 1) ∧
      (∀ c ∈ (scoring_logic cf3).getCol "dens_score", c = Cell.num 0)) ∧
    (cfD.hasCol "dens_sqkm" = true ∧
      ∀ k < cfD.numRows,
        (((cfD.getCol "dens_sqkm").getD k Cell.nan).isNumc = true →
          ((densStep cfD).getCol "dens_sqkm").getD k Cell.nan =
            (cfD.getCol "dens_sqkm").getD k Cell.nan) ∧
        (((cfD.getCol "dens_sqkm").getD k Cell.nan).isNumc = false →
          ((densStep cfD).getCol "dens_sqkm").getD k Cell.nan = Cell.num 0)) := by
  refine ⟨⟨by decide, ?_, ?_⟩, by decide, ?_⟩
  · exact ((c5_density_missing_and_coercion cf3 (by decide)).1 (by decide)).1
  · exact ((c5_density_missing_and_coercion cf3 (by decide)).1 (by decide)).2
  · exact (c5_density_missing_and_coercion cfD (by decide)).2 (by decide)

/-- Witness for C6 at cf3. -/
theorem c6_witness :
    W_DENS = 0.4 ∧ W_HEALTH = 0.2 ∧ W_POLICE = 0.2 ∧ W_ROADS = 0.2 ∧
    W_DENS + W_HEALTH + W_POLICE + W_ROADS = 1 ∧
    ∀ k < (scoring_logic cf3).numRows,
      ((scoring_logic cf3).getCol "score").getD k Cell.nan =
        ((((((scoring_logic cf3).getCol "dens_score").getD k Cell.nan).smulc
            W_DENS).addc
          ((((scoring_logic cf3).getCol "health_score").getD k Cell.nan).smulc
            W_HEALTH)).addc
          ((((scoring_logic cf3).getCol "police_score").getD k Cell.nan).smulc
            W_POLICE)).addc
          ((((scoring_logic cf3).getCol "roads_score").getD k Cell.nan).smulc
            W_ROADS) :=
  c6_composite_weighted_sum cf3 (by decide)

/-- Witness for C7 on three concrete layers: CRS absent, CRS 32733, and
CRS 4326. -/
theorem c7_witness :
    (rl1.crs = none ∧
      normalizeUploadCrs rpId rl1 = (rl1.set_crs 4326).to_crs rpId 32733) ∧
    (rl2.crs = some 32733 ∧ (32733 : ℕ) ≠ 4326 ∧
      normalizeUploadCrs rpId rl2 = (rl2.to_crs rpId 4326).to_crs rpId 32733) ∧
    (rl3.crs = some 4326 ∧
      normalizeUploadCrs rpId rl3 = rl3.to_crs rpId 32733) ∧
    (normalizeUploadCrs rpId rl1).crs = some 32733 :=
  ⟨⟨rfl, (c7_crs_normalization_branches rpId rl1).1 rfl⟩,
    ⟨rfl, by decide,
      (c7_crs_normalization_branches rpId rl2).2.1 32733 rfl (by decide)⟩,
    ⟨rfl, (c7_crs_normalization_branches rpId rl3).2.2.1 rfl⟩,
    (c7_crs_normalization_branches rpId rl1).2.2.2⟩

/-- Witness for C8 on seven concrete requests, one per response case. -/
theorem c8_witness :
    (rq1.hasFilePart = false ∧
      upload_route rq1 = .errResp "No file part in the request") ∧
    (rq2.filename = "" ∧ upload_route rq2 = .errResp "No selected file") ∧
    (allowed_file rq3.filename = false ∧
      upload_route rq3 = .errResp "Only .zip shapefiles are supported") ∧
    (rq4.extractListing = .error "cannot save file" ∧
      upload_route rq4 = .errResp "cannot save file") ∧
    (findShpFile ["readme.txt"] = none ∧
      upload_route rq5 = .errResp "No .shp file found in ZIP") ∧
    (upload_route rq6 = .errResp "unable to read shapefile") ∧
    (upload_route rq7 = .okResp "uploads/top5.geojson") :=
  ⟨⟨rfl, (c8_upload_error_taxonomy rq1).1 rfl⟩,
    ⟨rfl, (c8_upload_error_taxonomy rq2).2.1 rfl rfl⟩,
    ⟨by decide, (c8_upload_error_taxonomy rq3).2.2.1 rfl (by decide) (by decide)⟩,
    ⟨rfl, (c8_upload_error_taxonomy rq4).2.2.2.1 rfl (by decide) (by decide)
      "cannot save file" rfl⟩,
    ⟨by decide, (c8_upload_error_taxonomy rq5).2.2.2.2.1 rfl (by decide)
      (by decide) ["readme.txt"] rfl (by decide)⟩,
    (c8_upload_error_taxonomy rq6).2.2.2.2.2.1 rfl (by decide) (by decide)
      ["x.shp"] "uploads/shapefile_extracted/x.shp" rfl (by decide)
      "unable to read shapefile" rfl,
    (c8_upload_error_taxonomy rq7).2.2.2.2.2.2.1 rfl (by decide) (by decide)
      ["x.shp"] "uploads/shapefile_extracted/x.shp" rfl (by decide) rfl⟩

/-- Witness for C9 at the two-candidate layer cf3 (N = 2 < 5). -/
theorem c9_witness :
    cf3.WF ∧
    ((scoring_logic cf3).headN 5).numRows = min 5 cf3.numRows ∧
    (cf3.numRows < 5 →
      ((scoring_logic cf3).headN 5).numRows = cf3.numRows) :=
  ⟨by decide, c9_head_min_five cf3 (by decide)⟩

/-- Witness for C10 at cf3 with the empty-health infrastructure map. -/
theorem c10_witness :
    cf3.WF ∧
    (((compute_nearest id unitDist cf3 cnInfra).geoms = cf3.geoms) ∧
    ((compute_nearest id unitDist cf3 cnInfra).numRows = cf3.numRows) ∧
    (∀ c, (∀ kv ∈ cnInfra, c ≠ "dist_" ++ kv.1) →
      (compute_nearest id unitDist cf3 cnInfra).getCol c = cf3.getCol c) ∧
    (∀ c, (compute_nearest id unitDist cf3 cnInfra).hasCol c =
      (cf3.hasCol c || cnInfra.any (fun kv => c == "dist_" ++ kv.1))) ∧
    ((scoring_logic cf3).numRows = cf3.numRows) ∧
    (∃ p : List ℕ,
      List.Perm p (List.range cf3.numRows) ∧
      scoring_logic cf3 = reorderRows (scoringCols cf3) p ∧
      List.Perm (scoring_logic cf3).geoms cf3.geoms)) :=
  ⟨by decide, c10_frame_conditions id unitDist cf3 cnInfra (by decide)⟩

end FacilitySiting
